import Mathlib

/-!
Verification development for the card-profile synchronization engine of the
`ea-falco-dashboard` repository (`server/src/vaultRegistrar.js` and
`server/scripts/updateFromExcel.js`).

The JavaScript source is shallowly embedded:
* spreadsheet rows become association lists of column name to cell text
  (cells are modelled as the string the code would obtain via `String(val)`);
* JavaScript strings become Lean `String` (a list of characters; JS `.length`
  counts UTF-16 units, identical on the ASCII data used throughout);
* `undefined`/`null` become `Option.none`; JS truthiness of a string is
  "nonempty";
* the filesystem (photo files) and the network (SOAP endpoint) become explicit
  function parameters: a photo lookup by card/staff number, and a per-row-index
  transport oracle returning either a parsed response or a thrown error
  message (`Except`);
* `String.prototype.trim` is modelled over the ASCII whitespace class,
  `toLowerCase` over ASCII letters, and `Number(...)` over the decimal,
  hexadecimal, octal and binary numeral grammar (`Infinity` and other
  non-numeral inputs are modelled as parse failure, which the classifiers
  treat exactly like `NaN`).
-/

/-! ## JavaScript string primitives -/

/-- ASCII whitespace, the class trimmed by `String.prototype.trim` on the data
appearing in this system. -/
def jsWsChar (c : Char) : Bool :=
  c = ' ' || c = '\t' || c = '\n' || c = '\r' || c = '\x0b' || c = '\x0c'

/-- Model of `String.prototype.trim`: drop leading and trailing whitespace. -/
def jsTrim (s : String) : String :=
  String.mk (((s.data.dropWhile jsWsChar).reverse.dropWhile jsWsChar).reverse)

/-- Model of the `s(val)` helper of `vaultRegistrar.js`: `undefined`/`null`
become the default, otherwise the value is stringified and trimmed. -/
def sFn (val : Option String) : String :=
  match val with
  | none => ""
  | some v => jsTrim v

/-- Model of `str.substring(0, n)` / `str.slice(0, n)`: the first `n`
characters. -/
def strTake (s : String) (n : Nat) : String :=
  String.mk (s.data.take n)

/-- Model of `String.prototype.toLowerCase` (ASCII letters). -/
def jsToLower (s : String) : String :=
  String.mk (s.data.map Char.toLower)

/-- Decidable substring scan: does `p` occur as a prefix of some suffix that
starts at or after the head of `t`? -/
def subAt : List Char → List Char → Bool
  | _, [] => true
  | [], _ :: _ => false
  | _ :: t, p => List.isPrefixOf p t || subAt t p

/-- Model of `String.prototype.includes`: `pat` occurs contiguously in
`hay`. -/
def containsSub (hay pat : String) : Bool :=
  List.isPrefixOf pat.data hay.data || subAt hay.data pat.data

/-- JavaScript `a || b` on strings: `a` when it is truthy (nonempty),
otherwise `b`. -/
def jsOr (a b : String) : String :=
  if a ≠ "" then a else b

/-- JavaScript `opt || b` where `opt` may be `undefined`: the string when
present and nonempty, otherwise `b`. -/
def jsOrOpt (a : Option String) (b : String) : String :=
  match a with
  | none => b
  | some v => jsOr v b

/-- JavaScript falsiness of a possibly-`undefined` string (`!v`). -/
def jsFalsy (a : Option String) : Bool :=
  match a with
  | none => true
  | some v => v = ""

/-! ## Rows -/

/-- A spreadsheet row: ordered association list of column name to cell text.
`XLSX.utils.sheet_to_json` with `defval: ''` yields `''` for missing cells, so
an absent key reads as the empty string. -/
abbrev Row := List (String × String)

/-- Model of `row[key]` (up to the absent/empty-string identification noted on
`Row`). -/
def getRaw (row : Row) (k : String) : String :=
  match row.find? (fun kv => kv.fst == k) with
  | some kv => kv.snd
  | none => ""

/-- JavaScript `a || b || …` chain over raw cell values: the first truthy
(nonempty) one, or `""`. -/
def firstTruthy : List String → String
  | [] => ""
  | v :: vs => if v ≠ "" then v else firstTruthy vs

/-- Model of `s(row[k1] || row[k2] || …)`: first truthy cell among the named
columns, trimmed. -/
def pick (row : Row) (keys : List String) : String :=
  jsTrim (firstTruthy (keys.map (getRaw row)))

/-- Model of `s(row[k1] || … || dflt)` with a literal default at the end of
the `||` chain. -/
def pickOr (row : Row) (keys : List String) (dflt : String) : String :=
  jsTrim (firstTruthy (keys.map (getRaw row) ++ [dflt]))

/-! ## XML escaping (`escapeXml`, vaultRegistrar.js lines 194-202)

The JS function applies five global `replace` passes in the order
`&`, `<`, `>`, `"`, `'`. Because the replacement entities for the four later
passes contain none of the characters replaced by the following passes, and
the `&`s they introduce are not seen by the already-finished first pass, the
composition acts independently on each input character; the embedding uses
that character-wise form. -/

/-- The per-character action of the five `replace` passes. -/
def escChar (c : Char) : String :=
  if c = '&' then "&amp;"
  else if c = '<' then "&lt;"
  else if c = '>' then "&gt;"
  else if c = '"' then "&quot;"
  else if c = '\x27' then "&apos;"
  else String.mk [c]

/-- Character-wise expansion of a whole character list. -/
def escChars : List Char → List Char
  | [] => []
  | c :: cs => (escChar c).data ++ escChars cs

/-- Model of `escapeXml` on a string argument. -/
def escapeXml (v : String) : String :=
  String.mk (escChars v.data)

/-- Model of `escapeXml` including its `undefined`/`null` guard. -/
def escapeXmlOpt (u : Option String) : String :=
  match u with
  | none => ""
  | some v => escapeXml v

/-- Characters that would alter XML structure or terminate an attribute if
they survived escaping. -/
def xmlSpecial (c : Char) : Bool :=
  c = '<' || c = '>' || c = '"' || c = '\x27'

/-- Soundly escaped character data: no literal `<`, `>`, `"` or `'`, and
every `&` begins one of the five entities `&amp;` `&lt;` `&gt;` `&quot;`
`&apos;`. -/
inductive Escaped : List Char → Prop
  | nil : Escaped []
  | chr (c : Char) (rest : List Char) (hamp : c ≠ '&') (hspec : xmlSpecial c = false)
      (h : Escaped rest) : Escaped (c :: rest)
  | amp (rest : List Char) (h : Escaped rest) :
      Escaped ('&' :: 'a' :: 'm' :: 'p' :: ';' :: rest)
  | lt (rest : List Char) (h : Escaped rest) :
      Escaped ('&' :: 'l' :: 't' :: ';' :: rest)
  | gt (rest : List Char) (h : Escaped rest) :
      Escaped ('&' :: 'g' :: 't' :: ';' :: rest)
  | quot (rest : List Char) (h : Escaped rest) :
      Escaped ('&' :: 'q' :: 'u' :: 'o' :: 't' :: ';' :: rest)
  | apos (rest : List Char) (h : Escaped rest) :
      Escaped ('&' :: 'a' :: 'p' :: 'o' :: 's' :: ';' :: rest)

/-- An ampersand-initial suffix of soundly escaped data starts with one of
the five entity tails. -/
def EntityHead (post : List Char) : Prop :=
  (∃ r, post = 'a' :: 'm' :: 'p' :: ';' :: r) ∨
  (∃ r, post = 'l' :: 't' :: ';' :: r) ∨
  (∃ r, post = 'g' :: 't' :: ';' :: r) ∨
  (∃ r, post = 'q' :: 'u' :: 'o' :: 't' :: ';' :: r) ∨
  (∃ r, post = 'a' :: 'p' :: 'o' :: 's' :: ';' :: r)

theorem escaped_escChar (c : Char) (rest : List Char) (h : Escaped rest) :
    Escaped ((escChar c).data ++ rest) := by
  unfold escChar
  split
  · subst_vars; exact Escaped.amp rest h
  · split
    · subst_vars; exact Escaped.lt rest h
    · split
      · subst_vars; exact Escaped.gt rest h
      · split
        · subst_vars; exact Escaped.quot rest h
        · split
          · subst_vars; exact Escaped.apos rest h
          · rename_i h1 h2 h3 h4 h5
            refine Escaped.chr c rest h1 ?_ h
            simp [xmlSpecial, h2, h3, h4, h5]

theorem escaped_escChars (cs : List Char) : Escaped (escChars cs) := by
  induction cs with
  | nil => exact Escaped.nil
  | cons c cs ih => exact escaped_escChar c (escChars cs) ih

theorem Escaped.no_special {l : List Char} (h : Escaped l) :
    ∀ c ∈ l, xmlSpecial c = false := by
  induction h with
  | nil => intro c hc; cases hc
  | chr c rest hamp hspec h ih =>
    intro d hd
    rcases List.mem_cons.mp hd with rfl | hd
    · exact hspec
    · exact ih d hd
  | amp rest h ih =>
    intro d hd
    simp only [List.mem_cons] at hd
    rcases hd with rfl | rfl | rfl | rfl | rfl | hd
    · rfl
    · rfl
    · rfl
    · rfl
    · rfl
    · exact ih d hd
  | lt rest h ih =>
    intro d hd
    simp only [List.mem_cons] at hd
    rcases hd with rfl | rfl | rfl | rfl | hd
    · rfl
    · rfl
    · rfl
    · rfl
    · exact ih d hd
  | gt rest h ih =>
    intro d hd
    simp only [List.mem_cons] at hd
    rcases hd with rfl | rfl | rfl | rfl | hd
    · rfl
    · rfl
    · rfl
    · rfl
    · exact ih d hd
  | quot rest h ih =>
    intro d hd
    simp only [List.mem_cons] at hd
    rcases hd with rfl | rfl | rfl | rfl | rfl | rfl | hd
    · rfl
    · rfl
    · rfl
    · rfl
    · rfl
    · rfl
    · exact ih d hd
  | apos rest h ih =>
    intro d hd
    simp only [List.mem_cons] at hd
    rcases hd with rfl | rfl | rfl | rfl | rfl | rfl | hd
    · rfl
    · rfl
    · rfl
    · rfl
    · rfl
    · rfl
    · exact ih d hd

theorem Escaped.amp_entity {l : List Char} (h : Escaped l) :
    ∀ pre post, l = pre ++ '&' :: post → EntityHead post := by
  induction h with
  | nil =>
    intro pre post hsplit
    exact absurd hsplit (by simp)
  | chr c rest hamp hspec h ih =>
    intro pre post hsplit
    match pre, hsplit with
    | [], hs => simp only [List.nil_append, List.cons.injEq] at hs; exact absurd hs.1 hamp
    | p :: pre, hs =>
      simp only [List.cons_append, List.cons.injEq] at hs
      exact ih pre post hs.2
  | amp rest h ih =>
    intro pre post hsplit
    match pre, hsplit with
    | [], hs =>
      simp only [List.nil_append, List.cons.injEq] at hs
      exact Or.inl ⟨rest, hs.2.symm⟩
    | [_], hs => simp at hs
    | [_, _], hs => simp at hs
    | [_, _, _], hs => simp at hs
    | [_, _, _, _], hs => simp at hs
    | _ :: _ :: _ :: _ :: _ :: pre, hs =>
      simp only [List.cons_append, List.cons.injEq] at hs
      exact ih pre post hs.2.2.2.2.2
  | lt rest h ih =>
    intro pre post hsplit
    match pre, hsplit with
    | [], hs =>
      simp only [List.nil_append, List.cons.injEq] at hs
      exact Or.inr (Or.inl ⟨rest, hs.2.symm⟩)
    | [_], hs => simp at hs
    | [_, _], hs => simp at hs
    | [_, _, _], hs => simp at hs
    | _ :: _ :: _ :: _ :: pre, hs =>
      simp only [List.cons_append, List.cons.injEq] at hs
      exact ih pre post hs.2.2.2.2
  | gt rest h ih =>
    intro pre post hsplit
    match pre, hsplit with
    | [], hs =>
      simp only [List.nil_append, List.cons.injEq] at hs
      exact Or.inr (Or.inr (Or.inl ⟨rest, hs.2.symm⟩))
    | [_], hs => simp at hs
    | [_, _], hs => simp at hs
    | [_, _, _], hs => simp at hs
    | _ :: _ :: _ :: _ :: pre, hs =>
      simp only [List.cons_append, List.cons.injEq] at hs
      exact ih pre post hs.2.2.2.2
  | quot rest h ih =>
    intro pre post hsplit
    match pre, hsplit with
    | [], hs =>
      simp only [List.nil_append, List.cons.injEq] at hs
      exact Or.inr (Or.inr (Or.inr (Or.inl ⟨rest, hs.2.symm⟩)))
    | [_], hs => simp at hs
    | [_, _], hs => simp at hs
    | [_, _, _], hs => simp at hs
    | [_, _, _, _], hs => simp at hs
    | [_, _, _, _, _], hs => simp at hs
    | _ :: _ :: _ :: _ :: _ :: _ :: pre, hs =>
      simp only [List.cons_append, List.cons.injEq] at hs
      exact ih pre post hs.2.2.2.2.2.2
  | apos rest h ih =>
    intro pre post hsplit
    match pre, hsplit with
    | [], hs =>
      simp only [List.nil_append, List.cons.injEq] at hs
      exact Or.inr (Or.inr (Or.inr (Or.inr ⟨rest, hs.2.symm⟩)))
    | [_], hs => simp at hs
    | [_, _], hs => simp at hs
    | [_, _, _], hs => simp at hs
    | [_, _, _, _], hs => simp at hs
    | [_, _, _, _, _], hs => simp at hs
    | _ :: _ :: _ :: _ :: _ :: _ :: pre, hs =>
      simp only [List.cons_append, List.cons.injEq] at hs
      exact ih pre post hs.2.2.2.2.2.2

/-! ## JavaScript `Number(...)` on strings

`Number(str)` trims the string, maps the empty result to `0`, and otherwise
parses a decimal / hexadecimal / octal / binary numeral; anything else
(including `Infinity`, which no classifier below can mistake for `0` or `1`)
is modelled as parse failure, which the classifiers treat exactly like
`NaN`. -/

def isDigitCh (c : Char) : Bool := c.isDigit

def digitVal (c : Char) : Nat := c.toNat - 48

def digitsToNat (ds : List Char) : Nat :=
  ds.foldl (fun a c => 10 * a + digitVal c) 0

def hexDigitVal (c : Char) : Option Nat :=
  let n := c.toNat
  if 48 ≤ n ∧ n ≤ 57 then some (n - 48)
  else if 97 ≤ n ∧ n ≤ 102 then some (n - 87)
  else if 65 ≤ n ∧ n ≤ 70 then some (n - 55)
  else none

def radixDigitsToNat (radix : Nat) : List Char → Option Nat
  | [] => none
  | [c] => (hexDigitVal c).bind fun v => if v < radix then some v else none
  | c :: cs =>
    (hexDigitVal c).bind fun v =>
      if v < radix then (radixDigitsToNat radix cs).map (fun r => v * radix ^ cs.length + r)
      else none

/-- Exponent tail of a decimal numeral: optional sign, then digits. -/
def parseExpTail (cs : List Char) : Option Int :=
  match cs with
  | '+' :: ds => if ds ≠ [] ∧ ds.all isDigitCh then some (digitsToNat ds : Int) else none
  | '-' :: ds => if ds ≠ [] ∧ ds.all isDigitCh then some (-(digitsToNat ds : Int)) else none
  | ds => if ds ≠ [] ∧ ds.all isDigitCh then some (digitsToNat ds : Int) else none

/-- The exact rational `(ip + f / 10^fk) * 10^e`, built with a single
normalizing `mkRat` so that it evaluates by kernel reduction. -/
def decValue (ip f fk : Nat) (e : Int) : ℚ :=
  let num : Int := (ip * 10 ^ fk + f : Nat)
  if 0 ≤ e then mkRat (num * (10 : Int) ^ e.toNat) (10 ^ fk)
  else mkRat num (10 ^ fk * 10 ^ (-e).toNat)

/-- Decimal numeral tail: digits, optional fraction, optional exponent, as
accepted by the ECMAScript `StringNumericLiteral` grammar. -/
def parseDecTail (cs : List Char) : Option ℚ :=
  let intPart := cs.takeWhile isDigitCh
  let r1 := cs.dropWhile isDigitCh
  let fracPresent := r1.head? = some '.'
  let fracPart := (if fracPresent then r1.tail else []).takeWhile isDigitCh
  let r2 := if fracPresent then r1.tail.dropWhile isDigitCh else r1
  if intPart = [] ∧ fracPart = [] then none
  else
    match r2 with
    | [] => some (decValue (digitsToNat intPart) (digitsToNat fracPart) fracPart.length 0)
    | 'e' :: r3 =>
      (parseExpTail r3).map fun e => decValue (digitsToNat intPart) (digitsToNat fracPart) fracPart.length e
    | 'E' :: r3 =>
      (parseExpTail r3).map fun e => decValue (digitsToNat intPart) (digitsToNat fracPart) fracPart.length e
    | _ => none

def parseUnsigned (cs : List Char) : Option ℚ :=
  match cs with
  | '0' :: 'x' :: r => (radixDigitsToNat 16 r).map (fun n => mkRat n 1)
  | '0' :: 'X' :: r => (radixDigitsToNat 16 r).map (fun n => mkRat n 1)
  | '0' :: 'o' :: r => (radixDigitsToNat 8 r).map (fun n => mkRat n 1)
  | '0' :: 'O' :: r => (radixDigitsToNat 8 r).map (fun n => mkRat n 1)
  | '0' :: 'b' :: r => (radixDigitsToNat 2 r).map (fun n => mkRat n 1)
  | '0' :: 'B' :: r => (radixDigitsToNat 2 r).map (fun n => mkRat n 1)
  | r => parseDecTail r

/-- Model of JavaScript `Number(s)` for string `s`; `none` models `NaN` (and
infinities, indistinguishable from `NaN` for every comparison made below). -/
def jsNumber? (s : String) : Option ℚ :=
  match (jsTrim s).data with
  | [] => some 0
  | '+' :: r => parseUnsigned r
  | '-' :: r => (parseUnsigned r).map Neg.neg
  | r => parseUnsigned r

/-! ## Excel serial date normalization
(`normalizeExcelDate` inside `mapRowToUpdateProfile`, vaultRegistrar.js
lines 378-396.)

A trimmed value matching `^\d+(\.\d+)?$` is read as an Excel serial day
count, shifted by 25569 days to the Unix epoch and scaled to milliseconds
(`parseFloat` is exact on the integral serials this system feeds it; the
embedding computes the exact rational), clipped toward zero to an integral
millisecond count as `new Date(ms)` does, rejected when outside JavaScript's
±8.64e15 ms range, and otherwise rendered from the UTC calendar day. -/

/-- The `^\d+(\.\d+)?$` test. -/
def serialShape (cs : List Char) : Bool :=
  match cs.dropWhile isDigitCh with
  | [] => cs ≠ []
  | '.' :: fs => cs.takeWhile isDigitCh ≠ [] && fs ≠ [] && fs.all isDigitCh
  | _ => false

/-- Gregorian civil date from days since 1970-01-01 (the calendar underlying
`Date.getUTCFullYear/Month/Date`). Returns (year, month 1-12, day 1-31). -/
def civilFromDays (z0 : Int) : Int × Nat × Nat :=
  let z := z0 + 719468
  let era : Int := Int.fdiv z 146097
  let doe : Nat := (z - era * 146097).toNat
  let yoe : Nat := (doe - doe / 1460 + doe / 36524 - doe / 146096) / 365
  let doy : Nat := doe - (365 * yoe + yoe / 4 - yoe / 100)
  let mp : Nat := (5 * doy + 2) / 153
  let d : Nat := doy - (153 * mp + 2) / 5 + 1
  let m : Nat := if mp < 10 then mp + 3 else mp - 9
  let y : Int := (yoe : Int) + era * 400 + (if m ≤ 2 then 1 else 0)
  (y, m, d)

def monthNames : List String :=
  ["Jan", "Feb", "Mar", "Apr", "May", "Jun", "Jul", "Aug", "Sep", "Oct", "Nov", "Dec"]

/-- Model of the `normalizeExcelDate` closure. -/
def normalizeExcelDate (val : String) : String :=
  let sVal := jsTrim val
  if sVal = "" then ""
  else if serialShape sVal.data then
    let intPart := digitsToNat (sVal.data.takeWhile isDigitCh)
    let fracDigits := (sVal.data.dropWhile isDigitCh).tail
    let num : Int := ((intPart : Int) - 25569) * 10 ^ fracDigits.length + (digitsToNat fracDigits : Int)
    let msInt : Int := Int.tdiv (num * 86400000) (10 ^ fracDigits.length)
    if msInt.natAbs > 8640000000000000 then sVal
    else
      let day : Int := Int.fdiv msInt 86400000
      let ymd := civilFromDays day
      let d := ymd.snd.snd
      let mon := monthNames.getD (ymd.snd.fst - 1) ""
      let y := ymd.fst
      s!"{d} {mon} {y}"
  else sVal

/-! ## Card profiles -/

/-- Canonical card profile. Fields a mapper leaves untouched are `""`
(JavaScript `undefined`; every later read goes through `|| '…'`, which
cannot distinguish the two). `Photo` is `none` until a photo is attached;
`DownloadCard` is the stray field written by the create-batch override. -/
structure CardProfile where
  CardNo : String := ""
  Name : String := ""
  CardPinNo : String := ""
  CardType : String := ""
  Department : String := ""
  Company : String := ""
  Gentle : String := ""
  AccessLevel : String := ""
  FaceAccessLevel : String := ""
  LiftAccessLevel : String := ""
  BypassAP : String := ""
  ActiveStatus : String := ""
  NonExpired : String := ""
  ExpiredDate : String := ""
  VehicleNo : String := ""
  FloorNo : String := ""
  UnitNo : String := ""
  ParkingNo : String := ""
  StaffNo : String := ""
  Title : String := ""
  Position : String := ""
  NRIC : String := ""
  Passport : String := ""
  Race : String := ""
  DOB : String := ""
  JoiningDate : String := ""
  ResignDate : String := ""
  Address1 : String := ""
  Address2 : String := ""
  PostalCode : String := ""
  City : String := ""
  State : String := ""
  Email : String := ""
  MobileNo : String := ""
  Photo : Option String := none
  Download : String := ""
  DownloadCard : Option String := none
deriving Repr, DecidableEq, Inhabited

/-- Defaults for access levels when source data leaves them blank
(vaultRegistrar.js lines 12-14). -/
def DEFAULT_ACCESS_LEVEL : String := "00"

def DEFAULT_FACE_ACCESS_LEVEL : String := "00"

def DEFAULT_LIFT_ACCESS_LEVEL : String := "00"

/-- Model of `mapRowToProfile` (vaultRegistrar.js lines 87-139): the
create-variant mapper. -/
def mapRowToProfile (row : Row) : CardProfile :=
  let name := pick row ["Card Name [Max 50]", "Card Name", "Name", "Employee Name", "Employee", "Nama"]
  let staffNoRaw := pick row ["Staff No [Max 15]", "Staff No. [Max 10]", "Emp. No", "Employee ID", "ID", "NIK"]
  let cardNoRaw := pick row ["Card No #[Max 10]", "Card No [Max 10]", "Card No", "CardNo", "Card Number"]
  let department := pick row ["Department [Max 50]", "Department", "Departement", "Dept"]
  let company := pickOr row ["Company [Max 50]", "Company"] "Merdeka Tsingsan Indonesia"
  let email := pickOr row ["Email [Max 50]", "Email", "Email Address"] ""
  let mobile := pickOr row ["Mobile No. [Max 20]", "Mobile No", "Phone"] ""
  let faceAccessLevel0 := pickOr row ["Face Access Level [Max 3]", "Face Access Level", "FaceAccessLevel"] ""
  let faceAccessLevel := if faceAccessLevel0 = "" then DEFAULT_FACE_ACCESS_LEVEL else faceAccessLevel0
  let liftAccessLevel0 := pickOr row ["Lift Access Level [Max 3]", "Lift Access Level", "LiftAccessLevel"] ""
  let liftAccessLevel := if liftAccessLevel0 = "" then DEFAULT_LIFT_ACCESS_LEVEL else liftAccessLevel0
  let accessLevel0 := pick row ["Access Level [Max 3]", "Access Level", "AccessLevel"]
  let messHallRaw := pickOr row ["MessHall", "Mess Hall"] ""
  let messHall := jsTrim (jsToLower messHallRaw)
  let accessLevel1 :=
    if accessLevel0 = "" then
      if messHall = "labota" then "1"
      else if messHall = "makarti" then "2"
      else ""
    else accessLevel0
  let accessLevel := if accessLevel1 = "" then DEFAULT_ACCESS_LEVEL else accessLevel1
  let cardNo := strTake cardNoRaw 10
  { CardNo := cardNo
    StaffNo := staffNoRaw
    Name := name
    Department := department
    Company := company
    AccessLevel := accessLevel
    FaceAccessLevel := faceAccessLevel
    LiftAccessLevel := liftAccessLevel
    Email := email
    MobileNo := mobile
    ActiveStatus := "true"
    NonExpired := "true"
    ExpiredDate := ""
    Download := "true"
    Photo := none }

/-- Maximum lengths used by `mapRowToUpdateProfile` ("aligned with Vault DB
constraints", vaultRegistrar.js line 376). -/
def updateMaxName : Nat := 40

def updateMaxDepartment : Nat := 30

def updateMaxCompany : Nat := 30

def updateMaxTitle : Nat := 25

def updateMaxPosition : Nat := 25

def updateMaxAddress1 : Nat := 50

def updateMaxEmail : Nat := 50

def updateMaxMobileNo : Nat := 20

def updateMaxVehicleNo : Nat := 15

def updateMaxStaffNo : Nat := 15

/-- Model of the `clip` closure of `mapRowToUpdateProfile` (line 377): trim,
then cut to the maximum when the maximum is truthy (nonzero) and exceeded. -/
def clip (v : String) (m : Nat) : String :=
  let sVal := jsTrim v
  if m ≠ 0 ∧ sVal.length > m then strTake sVal m else sVal

/-- The final `VehicleNo` standardization block of `mapRowToUpdateProfile`
(vaultRegistrar.js lines 452-459): substring-match to one of three canonical
tokens, then clip to the 15-character maximum; the empty string passes
through. -/
def standardizeVehicleNo (vehicleNo0 : String) : String :=
  if vehicleNo0 ≠ "" then
    let v := jsToLower vehicleNo0
    let std :=
      if containsSub v "makarti" then "Makarti"
      else if containsSub v "labota" then "Labota"
      else if containsSub v "local" || containsSub v "no access" then "NoAccess"
      else vehicleNo0
    clip std updateMaxVehicleNo
  else vehicleNo0

/-- Model of `mapRowToUpdateProfile` (vaultRegistrar.js lines 374-490): the
update-variant mapper. -/
def mapRowToUpdateProfile (row : Row) : CardProfile :=
  let cardNo := strTake (pick row ["CARD NO", "Card No", "CardNo", "Card Number"]) 10
  let name := clip (pick row ["NAME", "Name", "Card Name", "Employee Name"]) updateMaxName
  let company := clip (pick row ["COMPANY", "Company"]) updateMaxCompany
  let staffNo := clip (pick row ["STAFF ID", "Staff No", "Employee ID", "ID"]) updateMaxStaffNo
  let department := clip (pick row ["DEPARTMENT", "Department"]) updateMaxDepartment
  let title := clip (pick row ["TITLE", "Title"]) updateMaxTitle
  let position := clip (pick row ["POSITION", "Position"]) updateMaxPosition
  let gentle := pick row ["GENDER", "Gender", "Gentle"]
  let ktpPassport := pick row ["KTP/PASPORT NO", "KTP/PASSPORT NO", "NRIC/Passport"]
  let dob := normalizeExcelDate (pick row ["DATE OF BIRTH", "DOB"])
  let address := clip (pick row ["ADDRESS", "Address"]) updateMaxAddress1
  let mobile := clip (pick row ["PHONE NO", "Mobile No", "Phone"]) updateMaxMobileNo
  let joining := normalizeExcelDate (pick row ["DATE OF HIRE", "Joining Date"])
  let resign := normalizeExcelDate (pick row ["WORK PERIOD END", "Resign Date"])
  let race := pick row ["RACE", "Race"]
  let cardStatus := jsToLower (pick row ["CARD STATUS", "Status", "STATUS"])
  let activeStatus :=
    if cardStatus ≠ "" then
      if containsSub cardStatus "active" then "true"
      else if containsSub cardStatus "inactive" then "false"
      else "true"
    else "true"
  let vehicleNoExplicit := pick row ["VEHICLE NO", "Vehicle No", "VehicleNo"]
  let messRaw := pick row ["MESSHALL", "MessHall", "Mess Hall"]
  let messDigits := String.mk (messRaw.data.filter (fun c => c = '0' || c = '1'))
  let mess := jsToLower messRaw
  let vehicleNo0 :=
    if vehicleNoExplicit = "" then
      if containsSub mess "makarti" then "Makarti MessHall"
      else if containsSub mess "labota" then "Labota Messhall"
      else "Local Hire / No Access!!"
    else vehicleNoExplicit
  let accessLevel0 :=
    if vehicleNoExplicit = "" then
      if messDigits = "00" || containsSub mess "no access" || containsSub mess "local hire" then "00"
      else if messDigits = "01" || containsSub mess "labota" then "01"
      else if messDigits = "10" || containsSub mess "makarti" then "10"
      else if messDigits = "11" || (containsSub mess "makarti" && containsSub mess "labota") then "11"
      else ""
    else
      if messDigits = "00" then "00"
      else if messDigits = "01" then "01"
      else if messDigits = "10" then "10"
      else if messDigits = "11" then "11"
      else ""
  let accessLevelExplicit := pick row ["ACCESS LEVEL", "Access Level", "AccessLevel"]
  let accessLevel1 :=
    if accessLevel0 = "" ∧ accessLevelExplicit ≠ "" then accessLevelExplicit else accessLevel0
  let accessLevel := if accessLevel1 = "" then DEFAULT_ACCESS_LEVEL else accessLevel1
  let faceAccessLevelExplicit := pick row ["FACE ACCESS LEVEL", "Face Access Level", "FaceAccessLevel"]
  let liftAccessLevelExplicit := pick row ["LIFT ACCESS LEVEL", "Lift Access Level", "LiftAccessLevel"]
  let vehicleNo := standardizeVehicleNo vehicleNo0
  { CardNo := cardNo
    Name := name
    Company := company
    Department := department
    StaffNo := staffNo
    Title := title
    Position := position
    Gentle := gentle
    NRIC := ktpPassport
    Passport := ""
    Race := race
    DOB := dob
    JoiningDate := joining
    ResignDate := resign
    Address1 := address
    Email := ""
    MobileNo := mobile
    ActiveStatus := activeStatus
    NonExpired := "true"
    ExpiredDate := ""
    AccessLevel := accessLevel
    FaceAccessLevel := jsOr faceAccessLevelExplicit DEFAULT_FACE_ACCESS_LEVEL
    LiftAccessLevel := jsOr liftAccessLevelExplicit DEFAULT_LIFT_ACCESS_LEVEL
    VehicleNo := vehicleNo
    Download := "true"
    Photo := none }

/-! ## SOAP envelopes (vaultRegistrar.js lines 144-192 and 245-294)

The builders are embedded with the environment-variable configuration at its
defaults (`SOAP_NAMESPACE = 'http://tempuri.org/'`, `SOAP_VERSION = '1.1'`),
exactly as the batch code runs without environment overrides. -/

def SOAP_NAMESPACE : String := "http://tempuri.org/"

def SOAP_VERSION : String := "1.1"

def soapEnvNs : String :=
  if SOAP_VERSION = "1.2" then "http://www.w3.org/2003/05/soap-envelope"
  else "http://schemas.xmlsoap.org/soap/envelope/"

/-- The `photoTag` expression shared by both builders: an escaped `Photo` tag
when the photo is truthy, an empty tag otherwise. -/
def photoTag (p : CardProfile) : String :=
  if p.Photo.getD "" ≠ "" then "<Photo>" ++ escapeXmlOpt p.Photo ++ "</Photo>"
  else "<Photo></Photo>"

/-- Model of `buildAddCardEnvelope`: the literal template of the source, with
each interpolation spliced in place. -/
def buildAddCardEnvelope (p : CardProfile) : String :=
  "<?xml version=\"1.0\" encoding=\"utf-8\"?>\n<soap:Envelope xmlns:xsi=\"http://www.w3.org/2001/XMLSchema-instance\" xmlns:xsd=\"http://www.w3.org/2001/XMLSchema\" xmlns:soap=\"" ++ soapEnvNs ++ "\">\n  <soap:Body>\n    <AddCard xmlns=\"" ++ SOAP_NAMESPACE ++ "\">\n      <CardProfile>\n        <CardNo>" ++ escapeXml p.CardNo ++ "</CardNo>\n        <Name>" ++ escapeXml p.Name ++ "</Name>\n        <CardPinNo>" ++ escapeXml (jsOr p.CardPinNo "") ++ "</CardPinNo>\n        <CardType>" ++ escapeXml (jsOr p.CardType "") ++ "</CardType>\n        <Department>" ++ escapeXml p.Department ++ "</Department>\n        <Company>" ++ escapeXml p.Company ++ "</Company>\n        <Gentle>" ++ escapeXml (jsOr p.Gentle "") ++ "</Gentle>\n        <AccessLevel>" ++ escapeXml p.AccessLevel ++ "</AccessLevel>\n        <FaceAccessLevel>" ++ escapeXml p.FaceAccessLevel ++ "</FaceAccessLevel>\n        <LiftAccessLevel>" ++ escapeXml (jsOr p.LiftAccessLevel "") ++ "</LiftAccessLevel>\n        <BypassAP>" ++ escapeXml (jsOr p.BypassAP "false") ++ "</BypassAP>\n        <ActiveStatus>" ++ escapeXml p.ActiveStatus ++ "</ActiveStatus>\n        <NonExpired>" ++ escapeXml p.NonExpired ++ "</NonExpired>\n        <ExpiredDate>" ++ escapeXml p.ExpiredDate ++ "</ExpiredDate>\n        <VehicleNo>" ++ escapeXml (jsOr p.VehicleNo "") ++ "</VehicleNo>\n        <FloorNo>" ++ escapeXml (jsOr p.FloorNo "") ++ "</FloorNo>\n        <UnitNo>" ++ escapeXml (jsOr p.UnitNo "") ++ "</UnitNo>\n        <ParkingNo>" ++ escapeXml (jsOr p.ParkingNo "") ++ "</ParkingNo>\n        <StaffNo>" ++ escapeXml (jsOr p.StaffNo "") ++ "</StaffNo>\n        <Title>" ++ escapeXml (jsOr p.Title "") ++ "</Title>\n        <Position>" ++ escapeXml (jsOr p.Position "") ++ "</Position>\n        <NRIC>" ++ escapeXml (jsOr p.NRIC "") ++ "</NRIC>\n        <Passport>" ++ escapeXml (jsOr p.Passport "") ++ "</Passport>\n        <Race>" ++ escapeXml (jsOr p.Race "") ++ "</Race>\n        <DOB>" ++ escapeXml (jsOr p.DOB "") ++ "</DOB>\n        <JoiningDate>" ++ escapeXml (jsOr p.JoiningDate "") ++ "</JoiningDate>\n        <ResignDate>" ++ escapeXml (jsOr p.ResignDate "") ++ "</ResignDate>\n        <Address1>" ++ escapeXml (jsOr p.Address1 "") ++ "</Address1>\n        <Address2>" ++ escapeXml (jsOr p.Address2 "") ++ "</Address2>\n        <PostalCode>" ++ escapeXml (jsOr p.PostalCode "") ++ "</PostalCode>\n        <City>" ++ escapeXml (jsOr p.City "") ++ "</City>\n        <State>" ++ escapeXml (jsOr p.State "") ++ "</State>\n        <Email>" ++ escapeXml p.Email ++ "</Email>\n        <MobileNo>" ++ escapeXml p.MobileNo ++ "</MobileNo>\n        " ++ photoTag p ++ "\n        <Download>" ++ escapeXml p.Download ++ "</Download>\n      </CardProfile>\n    </AddCard>\n  </soap:Body>\n</soap:Envelope>"

/-- Model of `buildUpdateCardEnvelope`: same template with the `UpdateCard`
element, a repeated top-level `CardNo`, and `|| '…'` defaults on every
profile read. -/
def buildUpdateCardEnvelope (p : CardProfile) : String :=
  "<?xml version=\"1.0\" encoding=\"utf-8\"?>\n<soap:Envelope xmlns:xsi=\"http://www.w3.org/2001/XMLSchema-instance\" xmlns:xsd=\"http://www.w3.org/2001/XMLSchema\" xmlns:soap=\"" ++ soapEnvNs ++ "\">\n  <soap:Body>\n    <UpdateCard xmlns=\"" ++ SOAP_NAMESPACE ++ "\">\n      <CardNo>" ++ escapeXml p.CardNo ++ "</CardNo>\n      <CardProfile>\n        <CardNo>" ++ escapeXml p.CardNo ++ "</CardNo>\n        <Name>" ++ escapeXml (jsOr p.Name "") ++ "</Name>\n        <CardPinNo>" ++ escapeXml (jsOr p.CardPinNo "") ++ "</CardPinNo>\n        <CardType>" ++ escapeXml (jsOr p.CardType "") ++ "</CardType>\n        <Department>" ++ escapeXml (jsOr p.Department "") ++ "</Department>\n        <Company>" ++ escapeXml (jsOr p.Company "") ++ "</Company>\n        <Gentle>" ++ escapeXml (jsOr p.Gentle "") ++ "</Gentle>\n        <AccessLevel>" ++ escapeXml (jsOr p.AccessLevel "") ++ "</AccessLevel>\n        <FaceAccessLevel>" ++ escapeXml (jsOr p.FaceAccessLevel "") ++ "</FaceAccessLevel>\n        <LiftAccessLevel>" ++ escapeXml (jsOr p.LiftAccessLevel "") ++ "</LiftAccessLevel>\n        <BypassAP>" ++ escapeXml (jsOr p.BypassAP "false") ++ "</BypassAP>\n        <ActiveStatus>" ++ escapeXml (jsOr p.ActiveStatus "true") ++ "</ActiveStatus>\n        <NonExpired>" ++ escapeXml (jsOr p.NonExpired "true") ++ "</NonExpired>\n        <ExpiredDate>" ++ escapeXml (jsOr p.ExpiredDate "") ++ "</ExpiredDate>\n        <VehicleNo>" ++ escapeXml (jsOr p.VehicleNo "") ++ "</VehicleNo>\n        <FloorNo>" ++ escapeXml (jsOr p.FloorNo "") ++ "</FloorNo>\n        <UnitNo>" ++ escapeXml (jsOr p.UnitNo "") ++ "</UnitNo>\n        <ParkingNo>" ++ escapeXml (jsOr p.ParkingNo "") ++ "</ParkingNo>\n        <StaffNo>" ++ escapeXml (jsOr p.StaffNo "") ++ "</StaffNo>\n        <Title>" ++ escapeXml (jsOr p.Title "") ++ "</Title>\n        <Position>" ++ escapeXml (jsOr p.Position "") ++ "</Position>\n        <NRIC>" ++ escapeXml (jsOr p.NRIC "") ++ "</NRIC>\n        <Passport>" ++ escapeXml (jsOr p.Passport "") ++ "</Passport>\n        <Race>" ++ escapeXml (jsOr p.Race "") ++ "</Race>\n        <DOB>" ++ escapeXml (jsOr p.DOB "") ++ "</DOB>\n        <JoiningDate>" ++ escapeXml (jsOr p.JoiningDate "") ++ "</JoiningDate>\n        <ResignDate>" ++ escapeXml (jsOr p.ResignDate "") ++ "</ResignDate>\n        <Address1>" ++ escapeXml (jsOr p.Address1 "") ++ "</Address1>\n        <Address2>" ++ escapeXml (jsOr p.Address2 "") ++ "</Address2>\n        <PostalCode>" ++ escapeXml (jsOr p.PostalCode "") ++ "</PostalCode>\n        <City>" ++ escapeXml (jsOr p.City "") ++ "</City>\n        <State>" ++ escapeXml (jsOr p.State "") ++ "</State>\n        <Email>" ++ escapeXml (jsOr p.Email "") ++ "</Email>\n        <MobileNo>" ++ escapeXml (jsOr p.MobileNo "") ++ "</MobileNo>\n        " ++ photoTag p ++ "\n        <Download>" ++ escapeXml (jsOr p.Download "true") ++ "</Download>\n      </CardProfile>\n    </UpdateCard>\n  </soap:Body>\n</soap:Envelope>"

/-! ## Structured view of the envelopes -/

/-- One serialized tag: `<name>value</name>`. -/
def renderTag (name value : String) : String :=
  "<" ++ name ++ ">" ++ value ++ "</" ++ name ++ ">"

/-- The separator between consecutive profile tags in the templates. -/
def tagSep : String := "\n        "

/-- Serialize a name/value list, one tag per entry, in list order. -/
def renderTags : List (String × String) → String
  | [] => ""
  | [nv] => renderTag nv.fst nv.snd
  | nv :: rest => renderTag nv.fst nv.snd ++ tagSep ++ renderTags rest

/-- The photo value as it appears inside the `Photo` tag. -/
def photoVal (p : CardProfile) : String :=
  match p.Photo with
  | some ph => escapeXml ph
  | none => ""

/-- Name/value entries of the `CardProfile` block of the AddCard envelope, in
template order. -/
def addProfileEntries (p : CardProfile) : List (String × String) :=
  [("CardNo", escapeXml p.CardNo),
   ("Name", escapeXml p.Name),
   ("CardPinNo", escapeXml (jsOr p.CardPinNo "")),
   ("CardType", escapeXml (jsOr p.CardType "")),
   ("Department", escapeXml p.Department),
   ("Company", escapeXml p.Company),
   ("Gentle", escapeXml (jsOr p.Gentle "")),
   ("AccessLevel", escapeXml p.AccessLevel),
   ("FaceAccessLevel", escapeXml p.FaceAccessLevel),
   ("LiftAccessLevel", escapeXml (jsOr p.LiftAccessLevel "")),
   ("BypassAP", escapeXml (jsOr p.BypassAP "false")),
   ("ActiveStatus", escapeXml p.ActiveStatus),
   ("NonExpired", escapeXml p.NonExpired),
   ("ExpiredDate", escapeXml p.ExpiredDate),
   ("VehicleNo", escapeXml (jsOr p.VehicleNo "")),
   ("FloorNo", escapeXml (jsOr p.FloorNo "")),
   ("UnitNo", escapeXml (jsOr p.UnitNo "")),
   ("ParkingNo", escapeXml (jsOr p.ParkingNo "")),
   ("StaffNo", escapeXml (jsOr p.StaffNo "")),
   ("Title", escapeXml (jsOr p.Title "")),
   ("Position", escapeXml (jsOr p.Position "")),
   ("NRIC", escapeXml (jsOr p.NRIC "")),
   ("Passport", escapeXml (jsOr p.Passport "")),
   ("Race", escapeXml (jsOr p.Race "")),
   ("DOB", escapeXml (jsOr p.DOB "")),
   ("JoiningDate", escapeXml (jsOr p.JoiningDate "")),
   ("ResignDate", escapeXml (jsOr p.ResignDate "")),
   ("Address1", escapeXml (jsOr p.Address1 "")),
   ("Address2", escapeXml (jsOr p.Address2 "")),
   ("PostalCode", escapeXml (jsOr p.PostalCode "")),
   ("City", escapeXml (jsOr p.City "")),
   ("State", escapeXml (jsOr p.State "")),
   ("Email", escapeXml p.Email),
   ("MobileNo", escapeXml p.MobileNo),
   ("Photo", photoVal p),
   ("Download", escapeXml p.Download)]

/-- Name/value entries of the `CardProfile` block of the UpdateCard envelope,
in template order. -/
def updProfileEntries (p : CardProfile) : List (String × String) :=
  [("CardNo", escapeXml p.CardNo),
   ("Name", escapeXml (jsOr p.Name "")),
   ("CardPinNo", escapeXml (jsOr p.CardPinNo "")),
   ("CardType", escapeXml (jsOr p.CardType "")),
   ("Department", escapeXml (jsOr p.Department "")),
   ("Company", escapeXml (jsOr p.Company "")),
   ("Gentle", escapeXml (jsOr p.Gentle "")),
   ("AccessLevel", escapeXml (jsOr p.AccessLevel "")),
   ("FaceAccessLevel", escapeXml (jsOr p.FaceAccessLevel "")),
   ("LiftAccessLevel", escapeXml (jsOr p.LiftAccessLevel "")),
   ("BypassAP", escapeXml (jsOr p.BypassAP "false")),
   ("ActiveStatus", escapeXml (jsOr p.ActiveStatus "true")),
   ("NonExpired", escapeXml (jsOr p.NonExpired "true")),
   ("ExpiredDate", escapeXml (jsOr p.ExpiredDate "")),
   ("VehicleNo", escapeXml (jsOr p.VehicleNo "")),
   ("FloorNo", escapeXml (jsOr p.FloorNo "")),
   ("UnitNo", escapeXml (jsOr p.UnitNo "")),
   ("ParkingNo", escapeXml (jsOr p.ParkingNo "")),
   ("StaffNo", escapeXml (jsOr p.StaffNo "")),
   ("Title", escapeXml (jsOr p.Title "")),
   ("Position", escapeXml (jsOr p.Position "")),
   ("NRIC", escapeXml (jsOr p.NRIC "")),
   ("Passport", escapeXml (jsOr p.Passport "")),
   ("Race", escapeXml (jsOr p.Race "")),
   ("DOB", escapeXml (jsOr p.DOB "")),
   ("JoiningDate", escapeXml (jsOr p.JoiningDate "")),
   ("ResignDate", escapeXml (jsOr p.ResignDate "")),
   ("Address1", escapeXml (jsOr p.Address1 "")),
   ("Address2", escapeXml (jsOr p.Address2 "")),
   ("PostalCode", escapeXml (jsOr p.PostalCode "")),
   ("City", escapeXml (jsOr p.City "")),
   ("State", escapeXml (jsOr p.State "")),
   ("Email", escapeXml (jsOr p.Email "")),
   ("MobileNo", escapeXml (jsOr p.MobileNo "")),
   ("Photo", photoVal p),
   ("Download", escapeXml (jsOr p.Download "true"))]

/-- The fixed tag-name sequence of the `CardProfile` block as the source
emits it (note the `Gentle` spelling of the gender tag). -/
def envelopeTagNames : List String :=
  ["CardNo", "Name", "CardPinNo", "CardType", "Department", "Company", "Gentle",
   "AccessLevel", "FaceAccessLevel", "LiftAccessLevel", "BypassAP", "ActiveStatus",
   "NonExpired", "ExpiredDate", "VehicleNo", "FloorNo", "UnitNo", "ParkingNo",
   "StaffNo", "Title", "Position", "NRIC", "Passport", "Race", "DOB",
   "JoiningDate", "ResignDate", "Address1", "Address2", "PostalCode", "City",
   "State", "Email", "MobileNo", "Photo", "Download"]

/-- The tag-name sequence the specification lists (with a `Gender` tag). -/
def specTagNames : List String :=
  ["CardNo", "Name", "CardPinNo", "CardType", "Department", "Company", "Gender",
   "AccessLevel", "FaceAccessLevel", "LiftAccessLevel", "BypassAP", "ActiveStatus",
   "NonExpired", "ExpiredDate", "VehicleNo", "FloorNo", "UnitNo", "ParkingNo",
   "StaffNo", "Title", "Position", "NRIC", "Passport", "Race", "DOB",
   "JoiningDate", "ResignDate", "Address1", "Address2", "PostalCode", "City",
   "State", "Email", "MobileNo", "Photo", "Download"]

/-- Fixed text before the `CardProfile` block of the AddCard envelope. -/
def addEnvHead : String :=
  "<?xml version=\"1.0\" encoding=\"utf-8\"?>\n<soap:Envelope xmlns:xsi=\"http://www.w3.org/2001/XMLSchema-instance\" xmlns:xsd=\"http://www.w3.org/2001/XMLSchema\" xmlns:soap=\"" ++ soapEnvNs ++ "\">\n  <soap:Body>\n    <AddCard xmlns=\"" ++ SOAP_NAMESPACE ++ "\">\n      <CardProfile>\n        "

/-- Fixed text after the `CardProfile` block of the AddCard envelope. -/
def addEnvTail : String :=
  "\n      </CardProfile>\n    </AddCard>\n  </soap:Body>\n</soap:Envelope>"

/-- Fixed text before the top-level correlation `CardNo` of the UpdateCard
envelope. -/
def updEnvHead : String :=
  "<?xml version=\"1.0\" encoding=\"utf-8\"?>\n<soap:Envelope xmlns:xsi=\"http://www.w3.org/2001/XMLSchema-instance\" xmlns:xsd=\"http://www.w3.org/2001/XMLSchema\" xmlns:soap=\"" ++ soapEnvNs ++ "\">\n  <soap:Body>\n    <UpdateCard xmlns=\"" ++ SOAP_NAMESPACE ++ "\">\n      "

/-- Fixed text between the correlation `CardNo` and the `CardProfile` block
of the UpdateCard envelope. -/
def updEnvMid : String :=
  "\n      <CardProfile>\n        "

/-- Fixed text after the `CardProfile` block of the UpdateCard envelope. -/
def updEnvTail : String :=
  "\n      </CardProfile>\n    </UpdateCard>\n  </soap:Body>\n</soap:Envelope>"

/-! ## Helper lemmas on the string model -/

theorem strExt {a b : String} (h : a.data = b.data) : a = b := by
  cases a; cases b; exact congrArg String.mk h

theorem data_append (a b : String) : (a ++ b).data = a.data ++ b.data := rfl

theorem photoTag_renderTag (p : CardProfile) : photoTag p = renderTag "Photo" (photoVal p) := by
  unfold photoTag photoVal renderTag
  cases hp : p.Photo with
  | none => simp
  | some ph =>
    by_cases he : ph = ""
    · subst he; simp [escapeXml, escChars]
    · simp only [Option.getD, he, if_true, escapeXmlOpt, ne_eq, not_false_iff]
      apply strExt
      simp only [data_append, List.append_assoc]
      simp [he]

set_option maxRecDepth 4000 in
/-- The AddCard template is the structured rendering of its profile entries
between the fixed head and tail. -/
theorem buildAdd_structured (p : CardProfile) :
    buildAddCardEnvelope p = addEnvHead ++ renderTags (addProfileEntries p) ++ addEnvTail := by
  apply strExt
  simp only [buildAddCardEnvelope, addEnvHead, addEnvTail, addProfileEntries, renderTags,
    renderTag, tagSep, photoTag_renderTag, data_append, List.append_assoc]
  rfl

set_option maxRecDepth 4000 in
/-- The UpdateCard template is the structured rendering of a top-level
correlation `CardNo` tag followed by its profile entries. -/
theorem buildUpd_structured (p : CardProfile) :
    buildUpdateCardEnvelope p =
      updEnvHead ++ renderTag "CardNo" (escapeXml p.CardNo) ++ updEnvMid ++
        renderTags (updProfileEntries p) ++ updEnvTail := by
  apply strExt
  simp only [buildUpdateCardEnvelope, updEnvHead, updEnvMid, updEnvTail, updProfileEntries,
    renderTags, renderTag, tagSep, photoTag_renderTag, data_append, List.append_assoc]
  rfl

/-! ## Transport responses and result classification -/

/-- Parsed SOAP response as produced by `postAddCard` / `postUpdateCard`:
HTTP status plus the optional `ErrCode` / `ErrMessage` tag captures (`none`
models an absent tag, i.e. `undefined`). -/
structure UpdResp where
  httpStatus : Nat
  errCode : Option String := none
  errMessage : Option String := none
deriving Repr, DecidableEq, Inhabited

/-- `fetch`'s `res.ok` (and hence the parsed `status === 'ok'`): HTTP status
in `[200, 300)`. -/
def httpOk (status : Nat) : Bool :=
  200 ≤ status && status < 300

/-- Business-success test of the create path (vaultRegistrar.js lines
652-653): HTTP 2xx and `Number(errCode)` equal to `0` or `1`; an absent
`errCode` gives `NaN`. -/
def createBizSuccess (resp : UpdResp) : Bool :=
  httpOk resp.httpStatus &&
    (resp.errCode.bind jsNumber? == some 0 || resp.errCode.bind jsNumber? == some 1)

/-- Business-success test of the update path (vaultRegistrar.js line 844):
`status === 'ok'` and `errCode` falsy or exactly `'0'`. -/
def updateOkResp (resp : UpdResp) : Bool :=
  httpOk resp.httpStatus && (jsFalsy resp.errCode || resp.errCode == some "0")

/-- A recorded per-row error. Fields absent from a given error shape are
`none` (`undefined`). -/
structure ErrRecord where
  code : String
  message : String
  errCode : Option String := none
  cardNo : Option String := none
  index : Option Nat := none
  name : Option String := none
deriving Repr, DecidableEq, Inhabited

/-- Error recording of the create path on a received response
(vaultRegistrar.js lines 651-665): `none` on business success; otherwise
`HTTP_ERROR` for a non-2xx status and `VAULT_ERROR` carrying the vendor
code and message for a 2xx business rejection. -/
def classifyAddResponse (resp : UpdResp) (cardNo : String) : Option ErrRecord :=
  if createBizSuccess resp then none
  else if !httpOk resp.httpStatus then
    some { code := "HTTP_ERROR", message := "HTTP " ++ toString resp.httpStatus,
           cardNo := some cardNo }
  else
    some { code := "VAULT_ERROR", message := jsOrOpt resp.errMessage "Unknown error",
           errCode := resp.errCode, cardNo := some cardNo }

/-- Error recording of the update batch on a received response
(vaultRegistrar.js lines 844-845): `none` on success, otherwise always
`VAULT_ERROR` (there is no `HTTP_ERROR` branch on this path). -/
def classifyUpdateResponse (resp : UpdResp) (cardNo : String) (i : Nat) : Option ErrRecord :=
  if updateOkResp resp then none
  else
    some { code := "VAULT_ERROR", message := jsOrOpt resp.errMessage "Unknown error",
           errCode := resp.errCode, cardNo := some cardNo, index := some i }

/-! ## Batch orchestration

The filesystem and network are explicit parameters:
* `photoOf cardNo staffNo` models `tryAttachPhoto`'s directory lookup — the
  base64 payload of the first existing candidate file, if any;
* `send i envelope` models one `postAddCard`/`postUpdateCard` call for row
  `i` — a parsed response, or `Except.error msg` for a thrown request
  failure. -/

abbrev PhotoLookup := String → String → Option String

abbrev Transport := Nat → String → Except String UpdResp

/-- A per-row detail entry (`result.details`); the create path leaves the
update-only fields at their defaults. -/
structure Detail where
  cardNo : String
  name : String
  hasPhoto : Bool
  respCode : Option String := none
  respMessage : Option String := none
  department : String := ""
  staffNo : String := ""
  sourceRow : Row := []
  profile : CardProfile := {}
deriving Repr, DecidableEq, Inhabited

/-- Accumulated batch outcome (`attempted` / `registered` / photo counters /
`details` / `errors`). -/
structure BatchResult where
  attempted : Nat := 0
  registered : Nat := 0
  withPhoto : Nat := 0
  withoutPhoto : Nat := 0
  errors : List ErrRecord := []
  details : List Detail := []
deriving Repr, DecidableEq, Inhabited

/-- A create-batch override entry (`{ index, cardNo?, downloadCard? }`). -/
structure COverride where
  index : Nat
  cardNo : Option String := none
  downloadCard : Option Bool := none
deriving Repr, DecidableEq, Inhabited

/-- The create batch's override map: `Map.set` keyed by `index`, so the last
entry for an index wins, with `cardNo` pre-trimmed to ten characters at map
build time (vaultRegistrar.js lines 590-599). -/
def lookupCOverride (overrides : List COverride) (i : Nat) : Option COverride :=
  (overrides.reverse).find? (fun o => o.index == i)

/-- Override application of the create loop (lines 611-621): a present
`cardNo` replaces `CardNo` (JS `overrideItem.cardNo || ''` — the identity on
the string), a present `downloadCard` writes the stray `DownloadCard`
field. -/
def applyCOverride (p : CardProfile) (o : Option COverride) : CardProfile :=
  match o with
  | none => p
  | some ov =>
    let p1 := match ov.cardNo with
      | some c => { p with CardNo := jsOr (strTake (jsTrim c) 10) "" }
      | none => p
    match ov.downloadCard with
    | some b => { p1 with DownloadCard := some (if b then "true" else "false") }
    | none => p1

/-- One create-batch row (the body of the loop of `registerJobToVault`,
vaultRegistrar.js lines 603-672). -/
def createStep (photoOf : PhotoLookup) (send : Transport) (overrides : List COverride)
    (i : Nat) (row : Row) (acc : BatchResult) : BatchResult :=
  let profile0 := mapRowToProfile row
  let acc := { acc with attempted := acc.attempted + 1 }
  let profile := applyCOverride profile0 (lookupCOverride overrides i)
  if profile.CardNo = "" then
    { acc with
      errors := acc.errors ++
        [{ code := "CARD_NO_MISSING", message := "Card No is required",
           index := some i, name := some profile.Name }]
      details := acc.details ++
        [{ cardNo := "", name := profile.Name, hasPhoto := false,
           respCode := some "CARD_NO_MISSING", respMessage := some "Card No is required" }] }
  else
    let photo := photoOf profile.CardNo profile.StaffNo
    let profile := { profile with Photo := photo }
    let hasPhoto := photo.isSome
    let acc := if hasPhoto then { acc with withPhoto := acc.withPhoto + 1 }
               else { acc with withoutPhoto := acc.withoutPhoto + 1 }
    let envelope := buildAddCardEnvelope profile
    match send i envelope with
    | Except.error msg =>
      { acc with errors := acc.errors ++
          [{ code := "REQUEST_FAILED", message := msg, cardNo := some profile.CardNo }] }
    | Except.ok resp =>
      let acc := match classifyAddResponse resp profile.CardNo with
        | none => { acc with registered := acc.registered + 1 }
        | some e => { acc with errors := acc.errors ++ [e] }
      { acc with details := acc.details ++
          [{ cardNo := profile.CardNo, name := profile.Name, hasPhoto := hasPhoto,
             respCode := resp.errCode, respMessage := resp.errMessage }] }

/-- The create-batch loop over the remaining rows, `i` being the index of the
first of them. -/
def createLoop (photoOf : PhotoLookup) (send : Transport) (overrides : List COverride) :
    Nat → List Row → BatchResult → BatchResult
  | _, [], acc => acc
  | i, row :: rest, acc =>
    createLoop photoOf send overrides (i + 1) rest (createStep photoOf send overrides i row acc)

/-- Model of `registerJobToVault` from the point where the rows have been
read (vaultRegistrar.js lines 580-676; the directory-existence check and the
file reading in lines 571-586 are elided in favor of the row list, and the
`NO_ROWS` early return is kept). -/
def registerJobToVault (rows : List Row) (overrides : List COverride)
    (photoOf : PhotoLookup) (send : Transport) : BatchResult :=
  if rows.isEmpty then
    { errors := [{ code := "NO_ROWS", message := "No rows found in Excel/CSV outputs." }] }
  else
    createLoop photoOf send overrides 0 rows {}

/-- JS truthiness of a possibly-`undefined` string (`!!v`). -/
def jsTruthyOpt (o : Option String) : Bool :=
  !(jsFalsy o)

/-- An update-batch override entry (`{ index, cardNo?, downloadCard? }`,
correlated by `overrides.find(o => o.index === i)`). -/
structure UOverride where
  index : Nat
  cardNo : Option String := none
  downloadCard : Option Bool := none
deriving Repr, DecidableEq, Inhabited

/-- Override application of the update-batch loop (vaultRegistrar.js lines
827-833): a truthy `cardNo` replaces `CardNo` trimmed to ten characters, a
boolean `downloadCard` is stringified into `Download`. -/
def applyUOverride (p : CardProfile) (o : Option UOverride) : CardProfile :=
  match o with
  | none => p
  | some ov =>
    let p1 := match ov.cardNo with
      | some c => if c ≠ "" then { p with CardNo := strTake (jsTrim c) 10 } else p
      | none => p
    match ov.downloadCard with
    | some b => { p1 with Download := if b then "true" else "false" }
    | none => p1

/-- One update-batch row (the body of the loop of `updateCsvPathToVault`,
vaultRegistrar.js lines 813-863). Note: no blank-`CardNo` check and no
`HTTP_ERROR` branch exist on this path. -/
def updStep (photoOf : PhotoLookup) (send : Transport) (overrides : List UOverride)
    (i : Nat) (row : Row) (acc : BatchResult) : BatchResult :=
  let profile0 := mapRowToUpdateProfile row
  let profile1 := applyUOverride profile0 (overrides.find? (fun o => o.index == i))
  let photo := photoOf profile1.CardNo profile1.StaffNo
  let profile := { profile1 with Photo := photo }
  let hasPhoto := photo.isSome
  let acc := if hasPhoto then { acc with withPhoto := acc.withPhoto + 1 }
             else { acc with withoutPhoto := acc.withoutPhoto + 1 }
  let envelope := buildUpdateCardEnvelope profile
  match send i envelope with
  | Except.error msg =>
    { acc with errors := acc.errors ++
        [{ code := "REQUEST_FAILED", message := msg, cardNo := some profile.CardNo,
           index := some i }] }
  | Except.ok resp =>
    let acc := match classifyUpdateResponse resp profile.CardNo i with
      | none => { acc with registered := acc.registered + 1 }
      | some e => { acc with errors := acc.errors ++ [e] }
    { acc with details := acc.details ++
        [{ cardNo := profile.CardNo, name := profile.Name,
           hasPhoto := jsTruthyOpt profile.Photo,
           respCode := resp.errCode, respMessage := resp.errMessage,
           department := profile.Department, staffNo := profile.StaffNo,
           sourceRow := row, profile := profile }] }

/-- The update-batch loop over the remaining rows. -/
def updLoop (photoOf : PhotoLookup) (send : Transport) (overrides : List UOverride) :
    Nat → List Row → BatchResult → BatchResult
  | _, [], acc => acc
  | i, row :: rest, acc =>
    updLoop photoOf send overrides (i + 1) rest (updStep photoOf send overrides i row acc)

/-- Model of `updateCsvPathToVault` from the point where the rows have been
read (vaultRegistrar.js lines 799-868): `attempted` is fixed to the row
count up front and every row is processed unconditionally. -/
def updateCsvPathToVault (rows : List Row) (overrides : List UOverride)
    (photoOf : PhotoLookup) (send : Transport) : BatchResult :=
  updLoop photoOf send overrides 0 rows { attempted := rows.length }

/-! ## Single-row update (`updateCsvRowToVault`, lines 871-993) -/

/-- The fixed key order in which the single-row override applies generic
profile-field patches (vaultRegistrar.js lines 905-909). -/
def overrideKeys : List String :=
  ["Name", "Department", "Company", "Gentle", "AccessLevel", "FaceAccessLevel",
   "LiftAccessLevel", "BypassAP", "ActiveStatus", "NonExpired", "ExpiredDate",
   "VehicleNo", "FloorNo", "UnitNo", "ParkingNo", "StaffNo", "Title", "Position",
   "NRIC", "Passport", "Race", "DOB", "JoiningDate", "ResignDate", "Address1",
   "Address2", "PostalCode", "City", "State", "Email", "MobileNo", "Download"]

/-- Dynamic field write `profile[key] = v` for the keys of `overrideKeys`. -/
def setField (p : CardProfile) (k : String) (v : String) : CardProfile :=
  if k = "Name" then { p with Name := v }
  else if k = "Department" then { p with Department := v }
  else if k = "Company" then { p with Company := v }
  else if k = "Gentle" then { p with Gentle := v }
  else if k = "AccessLevel" then { p with AccessLevel := v }
  else if k = "FaceAccessLevel" then { p with FaceAccessLevel := v }
  else if k = "LiftAccessLevel" then { p with LiftAccessLevel := v }
  else if k = "BypassAP" then { p with BypassAP := v }
  else if k = "ActiveStatus" then { p with ActiveStatus := v }
  else if k = "NonExpired" then { p with NonExpired := v }
  else if k = "ExpiredDate" then { p with ExpiredDate := v }
  else if k = "VehicleNo" then { p with VehicleNo := v }
  else if k = "FloorNo" then { p with FloorNo := v }
  else if k = "UnitNo" then { p with UnitNo := v }
  else if k = "ParkingNo" then { p with ParkingNo := v }
  else if k = "StaffNo" then { p with StaffNo := v }
  else if k = "Title" then { p with Title := v }
  else if k = "Position" then { p with Position := v }
  else if k = "NRIC" then { p with NRIC := v }
  else if k = "Passport" then { p with Passport := v }
  else if k = "Race" then { p with Race := v }
  else if k = "DOB" then { p with DOB := v }
  else if k = "JoiningDate" then { p with JoiningDate := v }
  else if k = "ResignDate" then { p with ResignDate := v }
  else if k = "Address1" then { p with Address1 := v }
  else if k = "Address2" then { p with Address2 := v }
  else if k = "PostalCode" then { p with PostalCode := v }
  else if k = "City" then { p with City := v }
  else if k = "State" then { p with State := v }
  else if k = "Email" then { p with Email := v }
  else if k = "MobileNo" then { p with MobileNo := v }
  else if k = "Download" then { p with Download := v }
  else p

/-- Dynamic field read `profile[key]` for the same keys. -/
def getField (p : CardProfile) (k : String) : String :=
  if k = "Name" then p.Name
  else if k = "Department" then p.Department
  else if k = "Company" then p.Company
  else if k = "Gentle" then p.Gentle
  else if k = "AccessLevel" then p.AccessLevel
  else if k = "FaceAccessLevel" then p.FaceAccessLevel
  else if k = "LiftAccessLevel" then p.LiftAccessLevel
  else if k = "BypassAP" then p.BypassAP
  else if k = "ActiveStatus" then p.ActiveStatus
  else if k = "NonExpired" then p.NonExpired
  else if k = "ExpiredDate" then p.ExpiredDate
  else if k = "VehicleNo" then p.VehicleNo
  else if k = "FloorNo" then p.FloorNo
  else if k = "UnitNo" then p.UnitNo
  else if k = "ParkingNo" then p.ParkingNo
  else if k = "StaffNo" then p.StaffNo
  else if k = "Title" then p.Title
  else if k = "Position" then p.Position
  else if k = "NRIC" then p.NRIC
  else if k = "Passport" then p.Passport
  else if k = "Race" then p.Race
  else if k = "DOB" then p.DOB
  else if k = "JoiningDate" then p.JoiningDate
  else if k = "ResignDate" then p.ResignDate
  else if k = "Address1" then p.Address1
  else if k = "Address2" then p.Address2
  else if k = "PostalCode" then p.PostalCode
  else if k = "City" then p.City
  else if k = "State" then p.State
  else if k = "Email" then p.Email
  else if k = "MobileNo" then p.MobileNo
  else if k = "Download" then p.Download
  else ""

/-- First-match association lookup (a JS object has unique keys, so the
first match is the only one). -/
def lookupAssoc (l : List (String × String)) (k : String) : Option String :=
  (l.find? (fun kv => kv.fst == k)).map (fun kv => kv.snd)

/-- A single-row override: optional `cardNo` / `downloadCard` plus a set of
generic profile-field patches keyed by field name. -/
structure SOverride where
  cardNo : Option String := none
  downloadCard : Option Bool := none
  fields : List (String × String) := []
deriving Repr, DecidableEq, Inhabited

/-- Override application of `updateCsvRowToVault` (lines 901-918): truthy
`cardNo`, boolean `downloadCard`, then each key of `overrideKeys` present
among the patches, in `overrideKeys` order. -/
def applySOverride (p : CardProfile) (o : Option SOverride) : CardProfile :=
  match o with
  | none => p
  | some ov =>
    let p1 := match ov.cardNo with
      | some c => if c ≠ "" then { p with CardNo := strTake (jsTrim c) 10 } else p
      | none => p
    let p2 := match ov.downloadCard with
      | some b => { p1 with Download := if b then "true" else "false" }
      | none => p1
    overrideKeys.foldl
      (fun q k =>
        match lookupAssoc ov.fields k with
        | some v => setField q k v
        | none => q) p2

/-- The flattened per-row status returned to callers (`rowStatus`). -/
structure RowStatus where
  ok : Bool
  code : Option String := none
  message : Option String := none
deriving Repr, DecidableEq, Inhabited

/-- Result of a single-row update; `rowStatus` is `none` exactly on the
`INDEX_OUT_OF_RANGE` early return, which carries no `rowStatus` field. -/
structure SingleResult where
  attempted : Nat
  registered : Nat
  withPhoto : Nat
  withoutPhoto : Nat
  details : List Detail
  errors : List ErrRecord
  rowStatus : Option RowStatus
deriving Repr, DecidableEq, Inhabited

/-- Model of `updateCsvRowToVault` (vaultRegistrar.js lines 871-993), with
the transport for the one call passed as `send`. -/
def updateCsvRowToVault (rows : List Row) (index : Nat) (override : Option SOverride)
    (photoOf : PhotoLookup) (send : String → Except String UpdResp) : SingleResult :=
  if rows.length ≤ index then
    { attempted := 0, registered := 0, withPhoto := 0, withoutPhoto := 0, details := [],
      errors := [{ code := "INDEX_OUT_OF_RANGE",
                   message := "Index out of range. index=" ++ toString index ++ ", rows=" ++ toString rows.length }],
      rowStatus := none }
  else
    let row := rows.getD index []
    let profile0 := mapRowToUpdateProfile row
    let profile1 := applySOverride profile0 override
    let photo := photoOf profile1.CardNo profile1.StaffNo
    let profile := { profile1 with Photo := photo }
    let hasPhoto := photo.isSome
    let withPhoto := if hasPhoto then 1 else 0
    let withoutPhoto := if hasPhoto then 0 else 1
    let envelope := buildUpdateCardEnvelope profile
    match send envelope with
    | Except.error msg =>
      { attempted := 1, registered := 0, withPhoto := withPhoto, withoutPhoto := withoutPhoto,
        details := [],
        errors := [{ code := "REQUEST_FAILED", message := msg, cardNo := some profile.CardNo }],
        rowStatus := some { ok := false, code := none,
                            message := if msg = "" then none else some msg } }
    | Except.ok resp =>
      let ok := updateOkResp resp
      let errors : List ErrRecord :=
        if ok then []
        else [{ code := "VAULT_ERROR", message := jsOrOpt resp.errMessage "Unknown error",
                errCode := resp.errCode, cardNo := some profile.CardNo }]
      { attempted := 1, registered := if ok then 1 else 0,
        withPhoto := withPhoto, withoutPhoto := withoutPhoto,
        details := [{ cardNo := profile.CardNo, name := profile.Name,
                      hasPhoto := jsTruthyOpt profile.Photo,
                      respCode := resp.errCode, respMessage := resp.errMessage,
                      department := profile.Department, staffNo := profile.StaffNo,
                      sourceRow := row, profile := profile }],
        errors := errors,
        rowStatus := some { ok := errors.length == 0, code := resp.errCode,
                            message := resp.errMessage } }

/-! ## Truncation retry coordinator
(`main` of `server/scripts/updateFromExcel.js`, lines 282-335.) -/

/-- The script's second, more permissive max-length table used for the
auto-retry overrides (updateFromExcel.js lines 283-295). -/
def retryMaxTable : List (String × Nat) :=
  [("Name", 50), ("Department", 50), ("Company", 50), ("Title", 50), ("Position", 50),
   ("Address1", 50), ("Address2", 50), ("Email", 50), ("MobileNo", 20),
   ("VehicleNo", 50), ("StaffNo", 15)]

/-- The truncation signature: case-insensitive substring match on
`"truncated"` (updateFromExcel.js line 296). -/
def isTruncatedMsg (msg : String) : Bool :=
  containsSub (jsToLower msg) "truncated"

/-- The profile the retry reads for row `idx`:
`previewUpdateCsvPathToVault` maps each row afresh through
`mapRowToUpdateProfile`, and an out-of-range index yields the empty object
(updateFromExcel.js lines 297, 305-306). -/
def previewProfile (rows : List Row) (idx : Nat) : CardProfile :=
  match rows.get? idx with
  | some row => mapRowToUpdateProfile row
  | none => {}

/-- The retry override for one profile (updateFromExcel.js lines 307-315):
every truthy field of the retry max-length table cut to its maximum, plus
the profile's `Download` flag. (`profile.Download` is defined on every
mapper-produced profile, so the `typeof … !== 'undefined'` guard always
passes on reachable inputs.) -/
def retryOverrideFor (p : CardProfile) : SOverride :=
  { fields :=
      (retryMaxTable.filterMap (fun km =>
        if getField p km.fst ≠ "" then some (km.fst, strTake (getField p km.fst) km.snd)
        else none)) ++ [("Download", p.Download)] }

/-- Truthiness of `single.rowStatus && single.rowStatus.ok`. -/
def rowOk (single : SingleResult) : Bool :=
  match single.rowStatus with
  | some rs => rs.ok
  | none => false

/-- The reported message of a failed retry:
`single.rowStatus.message || 'Unknown error'` (updateFromExcel.js line
321; the `single.error` middle operand of the JS `||` chain is always
`undefined`). -/
def retryFailMsg (single : SingleResult) : String :=
  match single.rowStatus with
  | some rs => jsOrOpt rs.message "Unknown error"
  | none => "Unknown error"

/-- An entry of `retryErrors` (updateFromExcel.js line 322). -/
structure RetryErr where
  index : Nat
  cardNo : Option String
  message : String
deriving Repr, DecidableEq, Inhabited

/-- The single-row resubmission the retry performs for one failed error
record. A batch error always carries its row index; for the (unreachable
from a batch) index-less record the model uses `rows.length`, which the
single-row operation rejects as out of range. -/
def retrySingle (rows : List Row) (photoOf : PhotoLookup)
    (sendRetry : Nat → String → Except String UpdResp) (e : ErrRecord) : SingleResult :=
  let idx := e.index.getD rows.length
  updateCsvRowToVault rows idx (some (retryOverrideFor (previewProfile rows idx)))
    photoOf (sendRetry idx)

/-- The per-target outcome folded into `retryUpdated` / `retryErrors`. -/
def retryOne (rows : List Row) (photoOf : PhotoLookup)
    (sendRetry : Nat → String → Except String UpdResp) (e : ErrRecord) : Option RetryErr :=
  let single := retrySingle rows photoOf sendRetry e
  if rowOk single then none
  else some { index := e.index.getD rows.length, cardNo := e.cardNo,
              message := retryFailMsg single }

/-- The auto-retry pass (updateFromExcel.js lines 296-324): filter the batch
errors for the truncation signature and resubmit each matching row once,
collecting the count of recovered rows and the remaining errors. -/
def autoRetry (rows : List Row) (photoOf : PhotoLookup)
    (sendRetry : Nat → String → Except String UpdResp) (errors : List ErrRecord) :
    Nat × List RetryErr :=
  (errors.filter (fun e => isTruncatedMsg e.message)).foldl
    (fun acc e =>
      match retryOne rows photoOf sendRetry e with
      | none => (acc.fst + 1, acc.snd)
      | some r => (acc.fst, acc.snd ++ [r]))
    (0, [])

/-! ## Length lemmas -/

theorem length_strTake (s : String) (n : Nat) : (strTake s n).length ≤ n := by
  have h : (strTake s n).length = (s.data.take n).length := rfl
  rw [h, List.length_take]
  exact min_le_left _ _

theorem jsTrim_length_le (s : String) : (jsTrim s).length ≤ s.length := by
  have h : (jsTrim s).length = (((s.data.dropWhile jsWsChar).reverse.dropWhile jsWsChar).reverse).length := rfl
  rw [h, List.length_reverse]
  calc ((s.data.dropWhile jsWsChar).reverse.dropWhile jsWsChar).length
      ≤ (s.data.dropWhile jsWsChar).reverse.length := (List.dropWhile_sublist _).length_le
    _ = (s.data.dropWhile jsWsChar).length := List.length_reverse _
    _ ≤ s.data.length := (List.dropWhile_sublist _).length_le

theorem clip_length_le (v : String) (m : Nat) (hm : 0 < m) : (clip v m).length ≤ m := by
  simp only [clip]
  split
  · exact length_strTake _ _
  · next h =>
    rcases Decidable.not_and_iff_or_not.mp h with h1 | h2
    · exact absurd (Nat.pos_iff_ne_zero.mp hm) h1
    · exact Nat.le_of_not_lt h2

theorem clip_twice (v : String) (m : Nat) (hm : 0 < m) :
    clip (clip v m) m = jsTrim (clip v m) := by
  have hle : (jsTrim (clip v m)).length ≤ m :=
    le_trans (jsTrim_length_le _) (clip_length_le v m hm)
  set c := clip v m with hc
  simp only [clip]
  split
  · next h => exact absurd h.2 (Nat.not_lt_of_le hle)
  · rfl

/-! ## Claim C10 -/

/-- C10: for every input value, `escapeXml` returns soundly escaped data — no
literal `<`, `>`, `"` or `'`, every `&` beginning one of the entities
`&amp;`, `&lt;`, `&gt;`, `&quot;`, `&apos;` — and maps `null`/`undefined` to
the empty string; hence no field value can alter the tag structure of a
built envelope. -/
theorem C10_escapeXml_sound :
    (∀ u : Option String,
      Escaped (escapeXmlOpt u).data ∧
      (∀ c ∈ (escapeXmlOpt u).data, xmlSpecial c = false) ∧
      (∀ pre post, (escapeXmlOpt u).data = pre ++ '&' :: post → EntityHead post)) ∧
    escapeXmlOpt none = "" := by
  refine ⟨fun u => ?_, rfl⟩
  have hesc : Escaped (escapeXmlOpt u).data := by
    cases u with
    | none => exact Escaped.nil
    | some v => exact escaped_escChars v.data
  exact ⟨hesc, hesc.no_special, fun pre post h => hesc.amp_entity pre post h⟩

/-- Witness for C10 at a concrete input: escaping `a&b` yields data whose
single ampersand begins the `&amp;` entity. -/
theorem C10_escapeXml_sound_witness :
    (escapeXmlOpt (some "a&b")).data = ['a'] ++ '&' :: ['a', 'm', 'p', ';', 'b'] ∧
      EntityHead ['a', 'm', 'p', ';', 'b'] :=
  ⟨by decide,
   (C10_escapeXml_sound.1 (some "a&b")).2.2 ['a'] ['a', 'm', 'p', ';', 'b'] (by decide)⟩

/-! ## Claim C1 -/

/-- C1: for every HTTP status in `[200, 300)`, the create operation counts a
response as business success exactly when the vendor error code parses (as a
JavaScript number) to `0` or `1`, while the update operation counts it as
success exactly when the vendor code is absent, empty, or the string `"0"`;
in particular vendor code `"1"` with HTTP 200 is a success for create but a
`VAULT_ERROR` failure for update. -/
theorem C1_business_success_asymmetry :
    (∀ st : Nat, 200 ≤ st → st < 300 → ∀ code : Option String,
      (createBizSuccess { httpStatus := st, errCode := code } = true ↔
        (code.bind jsNumber? = some 0 ∨ code.bind jsNumber? = some 1)) ∧
      (updateOkResp { httpStatus := st, errCode := code } = true ↔
        (code = none ∨ code = some "" ∨ code = some "0"))) ∧
    createBizSuccess { httpStatus := 200, errCode := some "1" } = true ∧
    updateOkResp { httpStatus := 200, errCode := some "1" } = false ∧
    classifyUpdateResponse { httpStatus := 200, errCode := some "1", errMessage := some "dup" } "C" 0 =
      some { code := "VAULT_ERROR", message := "dup", errCode := some "1",
             cardNo := some "C", index := some 0 } := by
  refine ⟨fun st h1 h2 code => ⟨?_, ?_⟩, by decide, by decide, by decide⟩
  · simp only [createBizSuccess, httpOk, Bool.and_eq_true, Bool.or_eq_true, beq_iff_eq,
      decide_eq_true_eq]
    constructor
    · rintro ⟨_, h⟩; exact h
    · intro h; exact ⟨⟨h1, h2⟩, h⟩
  · simp only [updateOkResp, httpOk, Bool.and_eq_true, Bool.or_eq_true, beq_iff_eq,
      decide_eq_true_eq]
    constructor
    · rintro ⟨_, h⟩
      cases code with
      | none => exact Or.inl rfl
      | some v =>
        rcases h with hf | h0
        · simp only [jsFalsy, decide_eq_true_eq] at hf
          exact Or.inr (Or.inl (congrArg some hf))
        · exact Or.inr (Or.inr h0)
    · intro h
      refine ⟨⟨h1, h2⟩, ?_⟩
      rcases h with rfl | rfl | rfl
      · exact Or.inl rfl
      · exact Or.inl (by simp [jsFalsy])
      · exact Or.inr rfl

/-- Witness for C1 at the concrete instance HTTP 200 with vendor code `"1"`. -/
theorem C1_business_success_asymmetry_witness :
    (200 ≤ 200 ∧ 200 < 300) ∧
    ((createBizSuccess { httpStatus := 200, errCode := some "1" } = true ↔
      ((some "1").bind jsNumber? = some 0 ∨ (some "1").bind jsNumber? = some 1)) ∧
     (updateOkResp { httpStatus := 200, errCode := some "1" } = true ↔
      (some "1" = none ∨ some "1" = some "" ∨ some "1" = some "0"))) :=
  ⟨⟨by decide, by decide⟩,
   C1_business_success_asymmetry.1 200 (by decide) (by decide) (some "1")⟩

/-! ## Claim C7 -/

/-- C7 counterexample: the code maps the serial `"35524"` to `"4 Apr 1997"`,
not to the claimed `"17 Apr 1997"` (the serial of 17 Apr 1997 is 35537);
moreover a non-numeric input carrying whitespace is trimmed, not returned
unchanged. -/
theorem C7_counterexample :
    normalizeExcelDate "35524" = "4 Apr 1997" ∧
    normalizeExcelDate "35524" ≠ "17 Apr 1997" ∧
    normalizeExcelDate "35537" = "17 Apr 1997" ∧
    normalizeExcelDate " 1990-01-02 " ≠ " 1990-01-02 " := by
  refine ⟨by decide, by decide, by decide, by decide⟩

/-- C7 amended: the serial `"35524"` renders as `"4 Apr 1997"` (days since
1899-12-30, shifted by 25569 days to the 1970 epoch, rendered `D Mon YYYY`),
and every trimmed input not matching the numeric-serial shape passes through
unchanged. -/
theorem C7_date_normalization :
    normalizeExcelDate "35524" = "4 Apr 1997" ∧
    (∀ s : String, jsTrim s = s → serialShape s.data = false → normalizeExcelDate s = s) := by
  refine ⟨by decide, fun s htrim hshape => ?_⟩
  unfold normalizeExcelDate
  rw [htrim]
  by_cases hempty : s = ""
  · subst hempty; simp
  · simp [hempty, hshape]

/-- Witness for C7 at the concrete non-numeric input `"1990-01-02"`. -/
theorem C7_date_normalization_witness :
    (jsTrim "1990-01-02" = "1990-01-02" ∧ serialShape "1990-01-02".data = false) ∧
    normalizeExcelDate "1990-01-02" = "1990-01-02" :=
  ⟨⟨by decide, by decide⟩,
   C7_date_normalization.2 "1990-01-02" (by decide) (by decide)⟩

theorem standardizeVehicleNo_length (x : String) :
    (standardizeVehicleNo x).length ≤ updateMaxVehicleNo := by
  unfold standardizeVehicleNo
  split
  · exact clip_length_le _ _ (by decide)
  · next h =>
    simp only [ne_eq, Decidable.not_not] at h
    rw [h]
    decide

/-! ## Claim C4 -/

/-- C4 counterexample: the create-variant mapper clips nothing but `CardNo`
— a 41-character name survives unclipped past its contracted maximum of 40 —
and clipping is not idempotent: truncation can expose trailing whitespace
that a second clip then trims. -/
theorem C4_counterexample :
    (mapRowToProfile [("Name", "AAAAAAAAAAAAAAAAAAAAAAAAAAAAAAAAAAAAAAAAA")]).Name.length = 41 ∧
    updateMaxName < 41 ∧
    clip (clip "ab cd" 3) 3 ≠ clip "ab cd" 3 ∧
    clip "ab cd" 3 = "ab " ∧ clip (clip "ab cd" 3) 3 = "ab" := by
  refine ⟨by decide, by decide, by decide, by decide, by decide⟩

set_option maxHeartbeats 1600000 in
/-- C4 amended: every string field the update-variant mapper clips stays
within its maximum (and both mappers cut `CardNo` to ten characters), but the
create-variant mapper clips only `CardNo`; clipping a second time equals
trimming the once-clipped value, so it is idempotent exactly when no
trailing whitespace is exposed at the cut. -/
theorem C4_clipping (row : Row) :
    (mapRowToUpdateProfile row).CardNo.length ≤ 10 ∧
    (mapRowToUpdateProfile row).Name.length ≤ updateMaxName ∧
    (mapRowToUpdateProfile row).Company.length ≤ updateMaxCompany ∧
    (mapRowToUpdateProfile row).Department.length ≤ updateMaxDepartment ∧
    (mapRowToUpdateProfile row).StaffNo.length ≤ updateMaxStaffNo ∧
    (mapRowToUpdateProfile row).Title.length ≤ updateMaxTitle ∧
    (mapRowToUpdateProfile row).Position.length ≤ updateMaxPosition ∧
    (mapRowToUpdateProfile row).Address1.length ≤ updateMaxAddress1 ∧
    (mapRowToUpdateProfile row).MobileNo.length ≤ updateMaxMobileNo ∧
    (mapRowToUpdateProfile row).Email.length ≤ updateMaxEmail ∧
    (mapRowToUpdateProfile row).VehicleNo.length ≤ updateMaxVehicleNo ∧
    (mapRowToProfile row).CardNo.length ≤ 10 ∧
    (∀ v m, 0 < m → clip (clip v m) m = jsTrim (clip v m)) := by
  obtain ⟨vc, hvc⟩ : ∃ v, (mapRowToUpdateProfile row).CardNo = strTake v 10 := ⟨_, rfl⟩
  obtain ⟨v1, hv1⟩ : ∃ v, (mapRowToUpdateProfile row).Name = clip v updateMaxName := ⟨_, rfl⟩
  obtain ⟨v2, hv2⟩ : ∃ v, (mapRowToUpdateProfile row).Company = clip v updateMaxCompany := ⟨_, rfl⟩
  obtain ⟨v3, hv3⟩ : ∃ v, (mapRowToUpdateProfile row).Department = clip v updateMaxDepartment := ⟨_, rfl⟩
  obtain ⟨v4, hv4⟩ : ∃ v, (mapRowToUpdateProfile row).StaffNo = clip v updateMaxStaffNo := ⟨_, rfl⟩
  obtain ⟨v5, hv5⟩ : ∃ v, (mapRowToUpdateProfile row).Title = clip v updateMaxTitle := ⟨_, rfl⟩
  obtain ⟨v6, hv6⟩ : ∃ v, (mapRowToUpdateProfile row).Position = clip v updateMaxPosition := ⟨_, rfl⟩
  obtain ⟨v7, hv7⟩ : ∃ v, (mapRowToUpdateProfile row).Address1 = clip v updateMaxAddress1 := ⟨_, rfl⟩
  obtain ⟨v8, hv8⟩ : ∃ v, (mapRowToUpdateProfile row).MobileNo = clip v updateMaxMobileNo := ⟨_, rfl⟩
  have hemail : (mapRowToUpdateProfile row).Email = "" := rfl
  obtain ⟨v9, hv9⟩ : ∃ v, (mapRowToUpdateProfile row).VehicleNo = standardizeVehicleNo v := ⟨_, rfl⟩
  obtain ⟨v10, hv10⟩ : ∃ v, (mapRowToProfile row).CardNo = strTake v 10 := ⟨_, rfl⟩
  refine ⟨?_, ?_, ?_, ?_, ?_, ?_, ?_, ?_, ?_, ?_, ?_, ?_, fun v m hm => clip_twice v m hm⟩
  · rw [hvc]; exact length_strTake _ _
  · rw [hv1]; exact clip_length_le _ _ (by decide)
  · rw [hv2]; exact clip_length_le _ _ (by decide)
  · rw [hv3]; exact clip_length_le _ _ (by decide)
  · rw [hv4]; exact clip_length_le _ _ (by decide)
  · rw [hv5]; exact clip_length_le _ _ (by decide)
  · rw [hv6]; exact clip_length_le _ _ (by decide)
  · rw [hv7]; exact clip_length_le _ _ (by decide)
  · rw [hv8]; exact clip_length_le _ _ (by decide)
  · rw [hemail]; decide
  · rw [hv9]; exact standardizeVehicleNo_length _
  · rw [hv10]; exact length_strTake _ _

/-- Witness for C4 at a concrete clip: a maximum of 3 is positive, and
re-clipping equals trimming the clipped value. -/
theorem C4_clipping_witness :
    (0 : Nat) < 3 ∧ clip (clip "ab cd" 3) 3 = jsTrim (clip "ab cd" 3) :=
  ⟨by decide, (C4_clipping []).2.2.2.2.2.2.2.2.2.2.2.2 "ab cd" 3 (by decide)⟩

/-! ## Claim C8 -/

/-- The card-number column synonyms of the create-variant mapper. -/
def createCardNoCols : List String :=
  ["Card No #[Max 10]", "Card No [Max 10]", "Card No", "CardNo", "Card Number"]

/-- The card-number column synonyms of the update-variant mapper. -/
def updateCardNoCols : List String :=
  ["CARD NO", "Card No", "CardNo", "Card Number"]

theorem firstTruthy_blank (l : List String) (h : ∀ x ∈ l, jsTrim x = "") :
    jsTrim (firstTruthy l) = "" := by
  induction l with
  | nil => decide
  | cons v vs ih =>
    simp only [firstTruthy]
    split
    · exact h v (List.mem_cons_self v vs)
    · exact ih fun x hx => h x (List.mem_cons_of_mem _ hx)

theorem pick_blank (row : Row) (cols : List String)
    (h : ∀ k ∈ cols, jsTrim (getRaw row k) = "") : pick row cols = "" := by
  unfold pick
  refine firstTruthy_blank _ fun x hx => ?_
  rcases List.mem_map.mp hx with ⟨k, hk, rfl⟩
  exact h k hk

/-- C8: in both mapper variants, `CardNo` is derived only from the
card-number columns: a row whose card-number columns are all blank produces
an empty `CardNo`, whatever its staff-number columns hold. -/
theorem C8_cardNo_not_from_staffNo (row : Row)
    (h1 : ∀ k ∈ createCardNoCols, jsTrim (getRaw row k) = "")
    (h2 : ∀ k ∈ updateCardNoCols, jsTrim (getRaw row k) = "") :
    (mapRowToProfile row).CardNo = "" ∧ (mapRowToUpdateProfile row).CardNo = "" := by
  constructor
  · have hc : (mapRowToProfile row).CardNo = strTake (pick row createCardNoCols) 10 := rfl
    rw [hc, pick_blank row createCardNoCols h1]
    decide
  · have hc : (mapRowToUpdateProfile row).CardNo = strTake (pick row updateCardNoCols) 10 := rfl
    rw [hc, pick_blank row updateCardNoCols h2]
    decide

/-- Witness for C8: a row with blank card-number columns but non-blank
staff-number columns still maps to an empty `CardNo` in both variants, while
`StaffNo` is populated. -/
theorem C8_cardNo_not_from_staffNo_witness :
    ((∀ k ∈ createCardNoCols, jsTrim (getRaw [("Staff No [Max 15]", "S123"), ("STAFF ID", "S77")] k) = "") ∧
     (∀ k ∈ updateCardNoCols, jsTrim (getRaw [("Staff No [Max 15]", "S123"), ("STAFF ID", "S77")] k) = "")) ∧
    ((mapRowToProfile [("Staff No [Max 15]", "S123"), ("STAFF ID", "S77")]).CardNo = "" ∧
     (mapRowToUpdateProfile [("Staff No [Max 15]", "S123"), ("STAFF ID", "S77")]).CardNo = "") ∧
    (mapRowToProfile [("Staff No [Max 15]", "S123"), ("STAFF ID", "S77")]).StaffNo = "S123" ∧
    (mapRowToUpdateProfile [("Staff No [Max 15]", "S123"), ("STAFF ID", "S77")]).StaffNo = "S77" :=
  ⟨⟨by decide, by decide⟩,
   C8_cardNo_not_from_staffNo [("Staff No [Max 15]", "S123"), ("STAFF ID", "S77")]
     (by decide) (by decide),
   by decide, by decide⟩

/-! ## Claim C9 -/

theorem updStep_counts (pf : PhotoLookup) (send : Transport) (ov : List UOverride)
    (i : Nat) (row : Row) (acc : BatchResult) :
    (updStep pf send ov i row acc).registered + (updStep pf send ov i row acc).errors.length
        = acc.registered + acc.errors.length + 1 ∧
    (updStep pf send ov i row acc).withPhoto + (updStep pf send ov i row acc).withoutPhoto
        = acc.withPhoto + acc.withoutPhoto + 1 ∧
    (updStep pf send ov i row acc).attempted = acc.attempted := by
  simp only [updStep]
  repeat' split
  all_goals simp
  all_goals omega

theorem updLoop_counts (pf : PhotoLookup) (send : Transport) (ov : List UOverride) :
    ∀ (l : List Row) (i : Nat) (acc : BatchResult),
    (updLoop pf send ov i l acc).registered + (updLoop pf send ov i l acc).errors.length
        = acc.registered + acc.errors.length + l.length ∧
    (updLoop pf send ov i l acc).withPhoto + (updLoop pf send ov i l acc).withoutPhoto
        = acc.withPhoto + acc.withoutPhoto + l.length ∧
    (updLoop pf send ov i l acc).attempted = acc.attempted := by
  intro l
  induction l with
  | nil => intro i acc; simp [updLoop]
  | cons row rest ih =>
    intro i acc
    have hstep := updStep_counts pf send ov i row acc
    have hrest := ih (i + 1) (updStep pf send ov i row acc)
    simp only [updLoop, List.length_cons]
    refine ⟨?_, ?_, ?_⟩
    · omega
    · omega
    · omega

/-- C9: for every update-batch run, each processed row contributes exactly one
of a registered-counter increment or one appended error record, and exactly
one of a with-photo or without-photo increment; hence the summary satisfies
`attempted = registered + errors.length` and
`withPhoto + withoutPhoto = attempted`. -/
theorem C9_update_summary_invariant (rows : List Row) (overrides : List UOverride)
    (photoOf : PhotoLookup) (send : Transport) :
    (updateCsvPathToVault rows overrides photoOf send).attempted =
      (updateCsvPathToVault rows overrides photoOf send).registered +
        (updateCsvPathToVault rows overrides photoOf send).errors.length ∧
    (updateCsvPathToVault rows overrides photoOf send).withPhoto +
      (updateCsvPathToVault rows overrides photoOf send).withoutPhoto =
      (updateCsvPathToVault rows overrides photoOf send).attempted := by
  have h := updLoop_counts photoOf send overrides rows 0 { attempted := rows.length }
  simp only [List.length_nil] at h
  unfold updateCsvPathToVault
  refine ⟨?_, ?_⟩
  · omega
  · omega

/-! ## Claim C2 -/

/-- C2 counterexample: in the update batch a non-2xx HTTP response is
recorded as `VAULT_ERROR`, not `HTTP_ERROR` — the update path has no
transport-error branch. -/
theorem C2_counterexample :
    (updateCsvPathToVault [[("CARD NO", "C1")]] [] (fun _ _ => none)
        (fun _ _ => Except.ok { httpStatus := 500, errCode := some "7", errMessage := some "boom" })).errors =
      [{ code := "VAULT_ERROR", message := "boom", errCode := some "7",
         cardNo := some "C1", index := some 0 }] := by
  decide

/-- C2 amended: in the create batch, a non-2xx response is recorded as
`HTTP_ERROR` regardless of vendor code and a 2xx business rejection as
`VAULT_ERROR` carrying the vendor code and message; in the update batch,
every non-success response — including non-2xx HTTP — is recorded as
`VAULT_ERROR` carrying the vendor code and message. -/
theorem C2_error_classification (resp : UpdResp) (cardNo : String) (i : Nat) :
    (httpOk resp.httpStatus = false →
      classifyAddResponse resp cardNo =
        some { code := "HTTP_ERROR", message := "HTTP " ++ toString resp.httpStatus,
               cardNo := some cardNo }) ∧
    (httpOk resp.httpStatus = true → createBizSuccess resp = false →
      classifyAddResponse resp cardNo =
        some { code := "VAULT_ERROR", message := jsOrOpt resp.errMessage "Unknown error",
               errCode := resp.errCode, cardNo := some cardNo }) ∧
    (updateOkResp resp = false →
      classifyUpdateResponse resp cardNo i =
        some { code := "VAULT_ERROR", message := jsOrOpt resp.errMessage "Unknown error",
               errCode := resp.errCode, cardNo := some cardNo, index := some i }) := by
  refine ⟨fun hna => ?_, fun hok hnb => ?_, fun hnu => ?_⟩
  · have hb : createBizSuccess resp = false := by
      simp [createBizSuccess, hna]
    simp [classifyAddResponse, hb, hna]
  · simp [classifyAddResponse, hnb, hok]
  · simp [classifyUpdateResponse, hnu]

/-- Witness for C2 at HTTP 500 with vendor code 7. -/
theorem C2_error_classification_witness :
    (httpOk (500 : Nat) = false ∧
     updateOkResp { httpStatus := 500, errCode := some "7", errMessage := some "boom" } = false) ∧
    classifyAddResponse { httpStatus := 500, errCode := some "7", errMessage := some "boom" } "C" =
      some { code := "HTTP_ERROR", message := "HTTP " ++ toString (500 : Nat), cardNo := some "C" } ∧
    classifyUpdateResponse { httpStatus := 500, errCode := some "7", errMessage := some "boom" } "C" 0 =
      some { code := "VAULT_ERROR",
             message := jsOrOpt (some "boom") "Unknown error",
             errCode := some "7", cardNo := some "C", index := some 0 } :=
  ⟨⟨by decide, by decide⟩,
   (C2_error_classification { httpStatus := 500, errCode := some "7", errMessage := some "boom" } "C" 0).1
     (by decide),
   (C2_error_classification { httpStatus := 500, errCode := some "7", errMessage := some "boom" } "C" 0).2.2
     (by decide)⟩

/-! ## Claim C5 -/

theorem classifyUpdateResponse_code (resp : UpdResp) (c : String) (i : Nat) (e : ErrRecord) :
    classifyUpdateResponse resp c i = some e → e.code = "VAULT_ERROR" := by
  unfold classifyUpdateResponse
  split
  · intro h; cases h
  · intro h; injection h with h; subst h; rfl

theorem ite_errors (c : Prop) [Decidable c] (a b : BatchResult) :
    (if c then a else b).errors = if c then a.errors else b.errors := by
  split <;> rfl

/-- Every error the update-batch step appends is a `REQUEST_FAILED` or a
`VAULT_ERROR`; in particular the step never records `CARD_NO_MISSING`. -/
theorem updStep_error_codes (pf : PhotoLookup) (send : Transport) (ov : List UOverride)
    (i : Nat) (row : Row) (acc : BatchResult) :
    ∀ e ∈ (updStep pf send ov i row acc).errors,
      e ∈ acc.errors ∨ e.code = "REQUEST_FAILED" ∨ e.code = "VAULT_ERROR" := by
  simp only [updStep]
  intro e he
  split at he
  · simp only [ite_errors, ite_self, List.mem_append, List.mem_singleton] at he
    rcases he with he | rfl
    · exact Or.inl he
    · exact Or.inr (Or.inl rfl)
  · split at he
    · simp only [ite_errors, ite_self] at he
      exact Or.inl he
    · next er hcl =>
      simp only [ite_errors, ite_self, List.mem_append, List.mem_singleton] at he
      rcases he with he | rfl
      · exact Or.inl he
      · exact Or.inr (Or.inr (classifyUpdateResponse_code _ _ _ _ hcl))

/-- C5 counterexample: the update batch has no blank-`CardNo` short-circuit —
a row whose mapped `CardNo` is empty is still sent (the summary depends on
the transport oracle) and no `CARD_NO_MISSING` error is recorded. -/
theorem C5_counterexample :
    (mapRowToUpdateProfile [("NAME", "Al")]).CardNo = "" ∧
    (updateCsvPathToVault [[("NAME", "Al")]] [] (fun _ _ => none)
        (fun _ _ => Except.ok { httpStatus := 200, errCode := some "0" })).errors = [] ∧
    (updateCsvPathToVault [[("NAME", "Al")]] [] (fun _ _ => none)
        (fun _ _ => Except.ok { httpStatus := 200, errCode := some "0" })).registered = 1 ∧
    (updateCsvPathToVault [[("NAME", "Al")]] [] (fun _ _ => none)
        (fun _ _ => Except.error "down")).errors =
      [{ code := "REQUEST_FAILED", message := "down", cardNo := some "", index := some 0 }] := by
  refine ⟨by decide, by decide, by decide, by decide⟩

/-- C5 amended: in the create batch a row whose `CardNo` is blank after
mapping and override application is recorded as `CARD_NO_MISSING` and the
row's processing is independent of the photo store and the transport (no
network call), while the loop continues with the remaining rows; the update
batch, by contrast, never records `CARD_NO_MISSING` for any row. -/
theorem C5_blank_cardNo (photoOf photoOf' : PhotoLookup) (send send' : Transport)
    (overrides : List COverride) (uoverrides : List UOverride) (i : Nat) (row : Row)
    (rest : List Row) (acc : BatchResult) :
    ((applyCOverride (mapRowToProfile row) (lookupCOverride overrides i)).CardNo = "" →
      createStep photoOf send overrides i row acc = createStep photoOf' send' overrides i row acc ∧
      (createStep photoOf send overrides i row acc).errors = acc.errors ++
        [{ code := "CARD_NO_MISSING", message := "Card No is required", index := some i,
           name := some (applyCOverride (mapRowToProfile row) (lookupCOverride overrides i)).Name }] ∧
      (createStep photoOf send overrides i row acc).registered = acc.registered) ∧
    (createLoop photoOf send overrides i (row :: rest) acc =
      createLoop photoOf send overrides (i + 1) rest (createStep photoOf send overrides i row acc)) ∧
    (∀ e ∈ (updStep photoOf send uoverrides i row acc).errors,
      e ∈ acc.errors ∨ e.code ≠ "CARD_NO_MISSING") := by
  refine ⟨fun h => ⟨?_, ?_, ?_⟩, rfl, fun e he => ?_⟩
  · simp [createStep, h]
  · simp [createStep, h]
  · simp [createStep, h]
  · rcases updStep_error_codes photoOf send uoverrides i row acc e he with hin | hc | hc
    · exact Or.inl hin
    · exact Or.inr (by rw [hc]; decide)
    · exact Or.inr (by rw [hc]; decide)

/-- Witness for C5 at a concrete blank-card row: the mapped and overridden
`CardNo` is empty and the create step records `CARD_NO_MISSING` while
ignoring the transport. -/
theorem C5_blank_cardNo_witness :
    (applyCOverride (mapRowToProfile [("Name", "Bob")]) (lookupCOverride [] 0)).CardNo = "" ∧
    (createStep (fun _ _ => none) (fun _ _ => Except.error "unreachable") [] 0 [("Name", "Bob")] {} =
       createStep (fun _ _ => some "p") (fun _ _ => Except.ok { httpStatus := 200 }) [] 0 [("Name", "Bob")] {} ∧
     (createStep (fun _ _ => none) (fun _ _ => Except.error "unreachable") [] 0 [("Name", "Bob")] {}).errors =
       ({} : BatchResult).errors ++
        [{ code := "CARD_NO_MISSING", message := "Card No is required", index := some 0,
           name := some (applyCOverride (mapRowToProfile [("Name", "Bob")]) (lookupCOverride [] 0)).Name }] ∧
     (createStep (fun _ _ => none) (fun _ _ => Except.error "unreachable") [] 0 [("Name", "Bob")] {}).registered =
       ({} : BatchResult).registered) :=
  ⟨by decide,
   (C5_blank_cardNo (fun _ _ => none) (fun _ _ => some "p")
      (fun _ _ => Except.error "unreachable") (fun _ _ => Except.ok { httpStatus := 200 })
      [] [] 0 [("Name", "Bob")] [] {}).1 (by decide)⟩

/-! ## Claim C6 -/

set_option maxRecDepth 40000 in
/-- C6 counterexample: the gender field's tag is spelled `Gentle` in both
envelopes — no `Gender` tag exists — so the claimed tag list (with `Gender`)
does not match the emitted one. -/
theorem C6_counterexample :
    containsSub (buildAddCardEnvelope {}) "<Gentle>" = true ∧
    containsSub (buildAddCardEnvelope {}) "<Gender>" = false ∧
    containsSub (buildUpdateCardEnvelope {}) "<Gentle>" = true ∧
    containsSub (buildUpdateCardEnvelope {}) "<Gender>" = false ∧
    envelopeTagNames ≠ specTagNames := by
  refine ⟨by decide, by decide, by decide, by decide, by decide⟩

/-- C6 amended: each envelope's profile block is exactly one tag per field in
the fixed order CardNo, Name, CardPinNo, CardType, Department, Company,
Gentle (the gender field's tag, spelled so by the source), AccessLevel, …,
Photo, Download; the tag names are pairwise distinct, missing values render
as empty tags rather than being omitted (except the defaulted tags:
BypassAP renders `false`, and in the update envelope ActiveStatus,
NonExpired and Download render `true`), all values are XML-escaped, and the
update envelope repeats CardNo once before the profile block. -/
theorem C6_envelope_structure (p : CardProfile) :
    buildAddCardEnvelope p = addEnvHead ++ renderTags (addProfileEntries p) ++ addEnvTail ∧
    buildUpdateCardEnvelope p =
      updEnvHead ++ renderTag "CardNo" (escapeXml p.CardNo) ++ updEnvMid ++
        renderTags (updProfileEntries p) ++ updEnvTail ∧
    (addProfileEntries p).map Prod.fst = envelopeTagNames ∧
    (updProfileEntries p).map Prod.fst = envelopeTagNames ∧
    envelopeTagNames.Nodup ∧
    addProfileEntries {} =
      envelopeTagNames.map (fun n => (n, if n = "BypassAP" then "false" else "")) ∧
    updProfileEntries {} =
      envelopeTagNames.map (fun n =>
        (n, if n = "BypassAP" then "false"
            else if n = "ActiveStatus" ∨ n = "NonExpired" ∨ n = "Download" then "true"
            else "")) ∧
    (∀ nv ∈ addProfileEntries p, Escaped nv.snd.data) ∧
    (∀ nv ∈ updProfileEntries p, Escaped nv.snd.data) := by
  have hphoto : Escaped (photoVal p).data := by
    unfold photoVal
    cases p.Photo
    · exact Escaped.nil
    · exact escaped_escChars _
  refine ⟨buildAdd_structured p, buildUpd_structured p, rfl, rfl, by decide, by decide,
    by decide, ?_, ?_⟩
  · intro nv hnv
    fin_cases hnv <;> first
      | exact escaped_escChars _
      | exact hphoto
  · intro nv hnv
    fin_cases hnv <;> first
      | exact escaped_escChars _
      | exact hphoto

/-- Witness for C6 at a concrete profile entry: the `Gentle` tag's value in
the AddCard envelope of the default profile is soundly escaped. -/
theorem C6_envelope_structure_witness :
    ("Gentle", escapeXml (jsOr ({} : CardProfile).Gentle "")) ∈ addProfileEntries {} ∧
    Escaped (escapeXml (jsOr ({} : CardProfile).Gentle "")).data :=
  ⟨by decide,
   (C6_envelope_structure {}).2.2.2.2.2.2.2.1 ("Gentle", escapeXml (jsOr ({} : CardProfile).Gentle ""))
     (by decide)⟩

/-! ## Claim C3 — supporting lemmas -/

theorem classifyUpdateResponse_index (resp : UpdResp) (c : String) (i : Nat) (e : ErrRecord) :
    classifyUpdateResponse resp c i = some e → e.index = some i := by
  unfold classifyUpdateResponse
  split
  · intro h; cases h
  · intro h; injection h with h; subst h; rfl

/-- One update-batch step appends zero or one error, and an appended error
carries the row's index. -/
theorem updStep_errors_shape (pf : PhotoLookup) (send : Transport) (ov : List UOverride)
    (i : Nat) (row : Row) (acc : BatchResult) :
    (updStep pf send ov i row acc).errors = acc.errors ∨
    ∃ er, (updStep pf send ov i row acc).errors = acc.errors ++ [er] ∧ er.index = some i := by
  simp only [updStep]
  split
  · next msg heq =>
    refine Or.inr
      ⟨{ code := "REQUEST_FAILED", message := msg,
         cardNo := some (applyUOverride (mapRowToUpdateProfile row)
               (List.find? (fun o => o.index == i) ov)).CardNo,
         index := some i },
       ?_, rfl⟩
    simp only [ite_errors, ite_self]
  · split
    · refine Or.inl ?_
      simp only [ite_errors, ite_self]
    · next er hcl =>
      refine Or.inr ⟨er, ?_, classifyUpdateResponse_index _ _ _ _ hcl⟩
      simp only [ite_errors, ite_self]

/-- The update-batch loop appends a block of errors with strictly increasing
row indices, all within the processed index range. -/
theorem updLoop_errors_shape (pf : PhotoLookup) (send : Transport) (ov : List UOverride) :
    ∀ (l : List Row) (i : Nat) (acc : BatchResult),
    ∃ δ, (updLoop pf send ov i l acc).errors = acc.errors ++ δ ∧
      (∀ e ∈ δ, ∃ j, e.index = some j ∧ i ≤ j ∧ j < i + l.length) ∧
      δ.Pairwise (fun a b => ∀ ja jb, a.index = some ja → b.index = some jb → ja < jb) := by
  intro l
  induction l with
  | nil =>
    intro i acc
    exact ⟨[], by simp [updLoop], by simp, List.Pairwise.nil⟩
  | cons row rest ih =>
    intro i acc
    obtain ⟨δ₁, h₁, hb₁, hp₁⟩ := ih (i + 1) (updStep pf send ov i row acc)
    rcases updStep_errors_shape pf send ov i row acc with h₀ | ⟨er, h₀, hidx⟩
    · refine ⟨δ₁, ?_, ?_, hp₁⟩
      · simp only [updLoop, h₁, h₀]
      · intro e he
        obtain ⟨j, hj, hle, hlt⟩ := hb₁ e he
        exact ⟨j, hj, by omega, by simpa [List.length_cons] using by omega⟩
    · refine ⟨er :: δ₁, ?_, ?_, ?_⟩
      · simp only [updLoop, h₁, h₀, List.append_assoc, List.singleton_append]
      · intro e he
        rcases List.mem_cons.mp he with rfl | he
        · exact ⟨i, hidx, Nat.le_refl i, by simp [List.length_cons]⟩
        · obtain ⟨j, hj, hle, hlt⟩ := hb₁ e he
          exact ⟨j, hj, by omega, by simp only [List.length_cons]; omega⟩
      · refine List.Pairwise.cons ?_ hp₁
        intro b hb ja jb hja hjb
        obtain ⟨j, hj, hle, hlt⟩ := hb₁ b hb
        rw [hidx] at hja
        injection hja with hja
        rw [hj] at hjb
        injection hjb with hjb
        omega

/-- The retry fold is the `filterMap` of the per-target outcome over the
truncation-filtered errors. -/
theorem autoRetry_snd_aux (rows : List Row) (pf : PhotoLookup)
    (sr : Nat → String → Except String UpdResp) :
    ∀ (ts : List ErrRecord) (acc : Nat × List RetryErr),
      (ts.foldl
        (fun acc e =>
          match retryOne rows pf sr e with
          | none => (acc.fst + 1, acc.snd)
          | some r => (acc.fst, acc.snd ++ [r]))
        acc).snd = acc.snd ++ ts.filterMap (retryOne rows pf sr) := by
  intro ts
  induction ts with
  | nil => intro acc; simp
  | cons e ts ih =>
    intro acc
    simp only [List.foldl_cons, List.filterMap_cons]
    cases hres : retryOne rows pf sr e with
    | none => simpa [hres] using ih (acc.fst + 1, acc.snd)
    | some r => simp [hres, ih, List.append_assoc]

theorem autoRetry_snd (rows : List Row) (pf : PhotoLookup)
    (sr : Nat → String → Except String UpdResp) (errors : List ErrRecord) :
    (autoRetry rows pf sr errors).snd =
      (errors.filter (fun e => isTruncatedMsg e.message)).filterMap (retryOne rows pf sr) := by
  unfold autoRetry
  simpa using autoRetry_snd_aux rows pf sr (errors.filter (fun e => isTruncatedMsg e.message)) (0, [])

theorem retryOne_index (rows : List Row) (pf : PhotoLookup)
    (sr : Nat → String → Except String UpdResp) (e : ErrRecord) (r : RetryErr) :
    retryOne rows pf sr e = some r → r.index = e.index.getD rows.length := by
  simp only [retryOne]
  split
  · intro h; cases h
  · intro h; injection h with h; subst h; rfl

/-- Among targets with pairwise-distinct indices all below the row count,
filtering the collected retry errors by one target's row index recovers
exactly that target's own outcome. -/
theorem filterMap_retry_by_index (rows : List Row) (pf : PhotoLookup)
    (sr : Nat → String → Except String UpdResp) :
    ∀ (ts : List ErrRecord),
      ts.Pairwise (fun a b => a.index ≠ b.index) →
      (∀ x ∈ ts, ∃ jx, x.index = some jx ∧ jx < rows.length) →
      ∀ e ∈ ts, ∀ j, e.index = some j →
        (ts.filterMap (retryOne rows pf sr)).filter (fun r => r.index == j) =
          (retryOne rows pf sr e).toList := by
  intro ts
  induction ts with
  | nil => intro _ _ e he; cases he
  | cons x ts ih =>
    intro hpw hbound e he j hej
    have hpw' := (List.pairwise_cons.mp hpw).2
    have hxts := (List.pairwise_cons.mp hpw).1
    have hbound' : ∀ y ∈ ts, ∃ jy, y.index = some jy ∧ jy < rows.length :=
      fun y hy => hbound y (List.mem_cons_of_mem _ hy)
    have hcontrib : ∀ y ∈ ts, y.index ≠ some j →
        ∀ r ∈ ts.filterMap (retryOne rows pf sr), ∃ y' ∈ ts, retryOne rows pf sr y' = some r := by
      intro y hy hne r hr
      exact List.mem_filterMap.mp hr
    rcases List.mem_cons.mp he with rfl | he
    · -- the target is the head
      have htail : (ts.filterMap (retryOne rows pf sr)).filter (fun r => r.index == j) = [] := by
        rw [List.filter_eq_nil_iff]
        intro r hr
        obtain ⟨y, hy, hry⟩ := List.mem_filterMap.mp hr
        obtain ⟨jy, hjy, _⟩ := hbound' y hy
        have hne : y.index ≠ e.index := fun hcontra => (hxts y hy) hcontra.symm
        have : r.index = jy := by
          rw [retryOne_index rows pf sr y r hry, hjy]
          rfl
        simp only [this, beq_iff_eq]
        intro hcontra
        exact hne (by rw [hjy, hcontra, ← hej])
      cases hres : retryOne rows pf sr e with
      | none => simp [List.filterMap_cons, hres, htail]
      | some r =>
        have hrj : r.index = j := by
          rw [retryOne_index rows pf sr e r hres, hej]
          rfl
        simp [List.filterMap_cons, hres, List.filter_cons, hrj, htail]
    · -- the target is in the tail
      have hx : ∀ r, retryOne rows pf sr x = some r → (r.index == j) = false := by
        intro r hrx
        obtain ⟨jx, hjx, _⟩ := hbound x (List.mem_cons_self x ts)
        have hne : x.index ≠ e.index := hxts e he
        have : r.index = jx := by
          rw [retryOne_index rows pf sr x r hrx, hjx]
          rfl
        simp only [this, beq_eq_false_iff_ne, ne_eq]
        intro hcontra
        exact hne (by rw [hjx, hcontra, ← hej])
      have ihres := ih hpw' hbound' e he j hej
      cases hres : retryOne rows pf sr x with
      | none => simpa [List.filterMap_cons, hres] using ihres
      | some r => simp [List.filterMap_cons, hres, List.filter_cons, hx r hres, ihres]

theorem key_unique {l : List (String × Nat)} (h : (l.map Prod.fst).Nodup) :
    ∀ {k : String} {a b : Nat}, (k, a) ∈ l → (k, b) ∈ l → a = b := by
  induction l with
  | nil => intro k a b ha _; cases ha
  | cons x t ih =>
    intro k a b ha hb
    rw [List.map_cons, List.nodup_cons] at h
    rcases List.mem_cons.mp ha with rfl | ha
    · rcases List.mem_cons.mp hb with heq | hb
      · exact (congrArg Prod.snd heq.symm : _)
      · exact absurd (show k ∈ List.map Prod.fst t from List.mem_map_of_mem Prod.fst hb)
          (by simpa using h.1)
    · rcases List.mem_cons.mp hb with heq | hb
      · rw [← heq] at h
        exact absurd (show k ∈ List.map Prod.fst t from List.mem_map_of_mem Prod.fst ha)
          (by simpa using h.1)
      · exact ih h.2 ha hb

/-- Any value looked up in the retry override's patch list comes either from
a retry-table entry — cut to that entry's maximum — or is the preserved
`Download` flag. -/
theorem lookup_retryOverride_mem (p : CardProfile) (k : String) (v : String) :
    lookupAssoc (retryOverrideFor p).fields k = some v →
    (∃ km ∈ retryMaxTable, km.fst = k ∧ v = strTake (getField p k) km.snd) ∨
      (k = "Download" ∧ v = p.Download) := by
  unfold lookupAssoc
  intro h
  rw [Option.map_eq_some'] at h
  obtain ⟨kv, hfind, hv⟩ := h
  have hmem := List.mem_of_find?_eq_some hfind
  have hkey : kv.fst = k := by
    have := List.find?_some hfind
    simpa using this
  simp only [retryOverrideFor] at hmem
  rcases List.mem_append.mp hmem with hm | hm
  · obtain ⟨km, hkm, hg⟩ := List.mem_filterMap.mp hm
    left
    refine ⟨km, hkm, ?_, ?_⟩
    · split at hg
      · injection hg with hg; rw [← hg] at hkey; exact hkey
      · cases hg
    · split at hg
      · injection hg with hg
        rw [← hv, ← hg]
        have hfst : km.fst = k := by rw [← hg] at hkey; exact hkey
        rw [hfst]
      · cases hg
  · right
    simp only [List.mem_singleton] at hm
    subst hm
    exact ⟨hkey.symm ▸ rfl, hv.symm⟩

/-- The retry override always preserves the profile's `Download` flag. -/
theorem lookup_retryOverride_download (p : CardProfile) :
    lookupAssoc (retryOverrideFor p).fields "Download" = some p.Download := by
  have hkeys : ∀ s ∈ retryMaxTable.map Prod.fst, s ≠ "Download" := by decide
  unfold lookupAssoc retryOverrideFor
  rw [List.find?_append]
  have h1 : List.find? (fun kv => kv.fst == "Download")
      (retryMaxTable.filterMap (fun km =>
        if getField p km.fst ≠ "" then some (km.fst, strTake (getField p km.fst) km.snd)
        else none)) = none := by
    rw [List.find?_eq_none]
    intro kv hkv
    obtain ⟨km, hkm, hg⟩ := List.mem_filterMap.mp hkv
    have hne : km.fst ≠ "Download" := hkeys km.fst (List.mem_map_of_mem Prod.fst hkm)
    split at hg
    · injection hg with hg
      rw [← hg]
      simpa using hne
    · cases hg
  rw [h1]
  simp [List.find?]

theorem previewProfile_eq (rows : List Row) (j : Nat) (h : j < rows.length) :
    previewProfile rows j = mapRowToUpdateProfile (rows.getD j []) := by
  unfold previewProfile
  cases h2 : rows.get? j with
  | none => exact absurd (List.get?_eq_none.mp h2) (Nat.not_le_of_lt h)
  | some row =>
    have : rows.getD j [] = row := by
      rw [List.getD_eq_getElem?_getD, ← List.get?_eq_getElem?, h2]
      rfl
    rw [this]

theorem retrySingle_eq (rows : List Row) (pf : PhotoLookup)
    (sr : Nat → String → Except String UpdResp) (e : ErrRecord) (j : Nat)
    (hej : e.index = some j) :
    retrySingle rows pf sr e =
      updateCsvRowToVault rows j (some (retryOverrideFor (previewProfile rows j)))
        pf (sr j) := by
  simp only [retrySingle, hej, Option.getD_some]

theorem retryOne_eq (rows : List Row) (pf : PhotoLookup)
    (sr : Nat → String → Except String UpdResp) (e : ErrRecord) (j : Nat)
    (hej : e.index = some j) :
    retryOne rows pf sr e =
      if rowOk (retrySingle rows pf sr e) = true then none
      else some { index := j, cardNo := e.cardNo,
                  message := retryFailMsg (retrySingle rows pf sr e) } := by
  simp only [retryOne, hej, Option.getD_some]

/-- The errors of one whole update-batch pass (the list the script's retry
coordinator receives). -/
def updateBatchErrors (rows : List Row) (photoOf : PhotoLookup) (send : Transport) :
    List ErrRecord :=
  (updateCsvPathToVault rows [] photoOf send).errors

/-- The truncation-signature targets the script selects for auto-retry. -/
def truncTargets (rows : List Row) (photoOf : PhotoLookup) (send : Transport) :
    List ErrRecord :=
  (updateBatchErrors rows photoOf send).filter (fun e => isTruncatedMsg e.message)

/-- The batch errors carry pairwise-distinct row indices, all below the row
count. -/
theorem updateBatchErrors_indices (rows : List Row) (photoOf : PhotoLookup) (send : Transport) :
    (updateBatchErrors rows photoOf send).Pairwise (fun a b => a.index ≠ b.index) ∧
    ∀ e ∈ updateBatchErrors rows photoOf send, ∃ j, e.index = some j ∧ j < rows.length := by
  obtain ⟨δ, herr, hbound, hpair⟩ :=
    updLoop_errors_shape photoOf send [] rows 0 { attempted := rows.length }
  have hδ : updateBatchErrors rows photoOf send = δ := by
    simpa [updateBatchErrors, updateCsvPathToVault] using herr
  rw [hδ]
  constructor
  · refine List.Pairwise.imp_of_mem ?_ hpair
    intro a b ha hb hrel
    obtain ⟨ja, hja, _, _⟩ := hbound a ha
    obtain ⟨jb, hjb, _, _⟩ := hbound b hb
    rw [hja, hjb]
    intro hcontra
    injection hcontra with hcontra
    exact absurd hcontra (Nat.ne_of_lt (hrel ja jb hja hjb))
  · intro e he
    obtain ⟨j, hj, _, hlt⟩ := hbound e he
    exact ⟨j, hj, by simpa using hlt⟩

/-! ## Claim C3 -/

/-- C3: after a full update-batch pass, exactly the errors whose message
contains "truncated" (case-insensitively) are retried; the targets carry
pairwise-distinct in-range row indices, so each row is retried at most once;
each retry re-derives the profile from the original row, patches it with
every field of the retry max-length table cut to that second bounded set of
maximums while preserving the resolved `Download` flag, and resubmits it as
a single-row operation; a row whose retry fails remains among the collected
retry errors with its latest message, and a row whose retry succeeds is not
among them. -/
theorem C3_truncation_retry (rows : List Row) (photoOf : PhotoLookup) (send : Transport)
    (sendRetry : Nat → String → Except String UpdResp) :
    (truncTargets rows photoOf send).Pairwise (fun a b => a.index ≠ b.index) ∧
    (∀ e ∈ truncTargets rows photoOf send, ∃ j, e.index = some j ∧ j < rows.length) ∧
    (autoRetry rows photoOf sendRetry (updateBatchErrors rows photoOf send)).snd =
      (truncTargets rows photoOf send).filterMap (retryOne rows photoOf sendRetry) ∧
    (∀ e ∈ truncTargets rows photoOf send, ∀ j, e.index = some j →
      retrySingle rows photoOf sendRetry e =
        updateCsvRowToVault rows j
          (some (retryOverrideFor (mapRowToUpdateProfile (rows.getD j []))))
          photoOf (sendRetry j)) ∧
    (∀ (p : CardProfile) (k : String) (m : Nat) (v : String), (k, m) ∈ retryMaxTable →
      lookupAssoc (retryOverrideFor p).fields k = some v → v.length ≤ m) ∧
    (∀ p : CardProfile, lookupAssoc (retryOverrideFor p).fields "Download" = some p.Download) ∧
    (∀ e ∈ truncTargets rows photoOf send, ∀ j, e.index = some j →
      (rowOk (retrySingle rows photoOf sendRetry e) = true →
        (autoRetry rows photoOf sendRetry (updateBatchErrors rows photoOf send)).snd.filter
            (fun r => r.index == j) = []) ∧
      (rowOk (retrySingle rows photoOf sendRetry e) = false →
        (autoRetry rows photoOf sendRetry (updateBatchErrors rows photoOf send)).snd.filter
            (fun r => r.index == j) =
          [{ index := j, cardNo := e.cardNo,
             message := retryFailMsg (retrySingle rows photoOf sendRetry e) }])) := by
  obtain ⟨hpairAll, hboundAll⟩ := updateBatchErrors_indices rows photoOf send
  have hpair : (truncTargets rows photoOf send).Pairwise (fun a b => a.index ≠ b.index) :=
    List.Pairwise.filter _ hpairAll
  have hbound : ∀ e ∈ truncTargets rows photoOf send, ∃ j, e.index = some j ∧ j < rows.length :=
    fun e he => hboundAll e (List.mem_of_mem_filter he)
  have hsnd := autoRetry_snd rows photoOf sendRetry (updateBatchErrors rows photoOf send)
  refine ⟨hpair, hbound, hsnd, ?_, ?_, lookup_retryOverride_download, ?_⟩
  · intro e he j hej
    obtain ⟨j', hej', hlt⟩ := hbound e he
    rw [hej] at hej'
    injection hej' with hjj
    subst hjj
    rw [retrySingle_eq rows photoOf sendRetry e j hej,
      previewProfile_eq rows j hlt]
  · intro p k m v hkm hlook
    rcases lookup_retryOverride_mem p k v hlook with ⟨km, hkmMem, hkmFst, hv⟩ | ⟨hk, _⟩
    · have hnodup : (retryMaxTable.map Prod.fst).Nodup := by decide
      have hkmPair : (k, km.snd) ∈ retryMaxTable := by
        have : km = (k, km.snd) := by
          cases km
          simp only at hkmFst
          rw [hkmFst]
        rw [← this]
        exact hkmMem
      have hmm : m = km.snd := key_unique hnodup hkm hkmPair
      rw [hv, hmm]
      exact length_strTake _ _
    · subst hk
      have : "Download" ∈ retryMaxTable.map Prod.fst := List.mem_map_of_mem Prod.fst hkm
      exact absurd this (by decide)
  · intro e he j hej
    have hfil := filterMap_retry_by_index rows photoOf sendRetry
      (truncTargets rows photoOf send) hpair hbound e he j hej
    have htt : List.filter (fun e => isTruncatedMsg e.message)
        (updateBatchErrors rows photoOf send) = truncTargets rows photoOf send := rfl
    constructor
    · intro hok
      rw [hsnd, htt, hfil, retryOne_eq rows photoOf sendRetry e j hej, hok]
      rfl
    · intro hfail
      rw [hsnd, htt, hfil, retryOne_eq rows photoOf sendRetry e j hej, hfail]
      rfl

/-- Concrete one-row scenario for the C3 witness: the batch call reports a
truncation-style vendor rejection. -/
def c3Rows : List Row := [[("CARD NO", "C9")]]

def c3Photo : PhotoLookup := fun _ _ => none

def c3Send : Transport :=
  fun _ _ => Except.ok { httpStatus := 200, errCode := some "5", errMessage := some "Data Truncated" }

def c3Retry : Nat → String → Except String UpdResp :=
  fun _ _ => Except.ok { httpStatus := 200, errCode := some "6", errMessage := some "still Truncated" }

def c3Err : ErrRecord :=
  { code := "VAULT_ERROR", message := "Data Truncated", errCode := some "5",
    cardNo := some "C9", index := some 0 }

/-- Witness for C3: in the concrete scenario the truncation error is a
retry target with row index 0, its retry fails again, and it remains in the
collected retry errors with the latest message. -/
theorem C3_truncation_retry_witness :
    (c3Err ∈ truncTargets c3Rows c3Photo c3Send ∧ c3Err.index = some 0 ∧
      rowOk (retrySingle c3Rows c3Photo c3Retry c3Err) = false) ∧
    (autoRetry c3Rows c3Photo c3Retry (updateBatchErrors c3Rows c3Photo c3Send)).snd.filter
        (fun r => r.index == 0) =
      [{ index := 0, cardNo := some "C9",
         message := retryFailMsg (retrySingle c3Rows c3Photo c3Retry c3Err) }] :=
  ⟨⟨by decide, by decide, by decide⟩,
   by
     have h := ((C3_truncation_retry c3Rows c3Photo c3Send c3Retry).2.2.2.2.2.2 c3Err
       (by decide) 0 (by decide)).2 (by decide)
     rw [h]
     rfl⟩
